import Mathlib

/-!
# Project-Portal front end: fetch lifecycle of the view components

A shallow embedding of the React components under `frontend/src`:
`TopicSelectionPage`, `QuestPage`, `BadgeDisplay`, `RewardModal`, `StudyMaterial`
and `App`.

* The `useState` cells of a component are the fields of a `State` structure; the
  values passed to `useState` are the fields of `initial`.
* The `return` of a component is a function `render` from props and state to the
  element tree (`none` for `return null`).
* An `async` function is embedded by what it does once it has run to its end:
  the requests it issued and the state update its setters perform.
* `fetch` is a parameter: a function from the request URL to what the request
  does (reject, or answer with a status and a body).
-/

namespace Portal

/-! ## JavaScript values used as keys and identifiers -/

/-- Values a key prop or an `id` field holds: `null`, `undefined`, an integer
number or a string. -/
inductive JSVal where
  | null
  | undefined
  | num (n : Int)
  | str (s : String)
  deriving DecidableEq, Repr

namespace JSVal

/-- Truthiness, as tested by `!topicId` and `!userId`. -/
def truthy : JSVal → Bool
  | null => false
  | undefined => false
  | num n => n != 0
  | str s => s != ""

/-- String conversion performed by a template literal. -/
def toStr : JSVal → String
  | null => "null"
  | undefined => "undefined"
  | num n => toString n
  | str s => s

end JSVal

/-- Truthiness of the `error` state cell (`null` or a string), as tested by
`if (error)`. -/
def errorTruthy : Option String → Bool
  | none => false
  | some m => m != ""

/-! ## Data model -/

structure Topic where
  id : JSVal
  name : String
  description : String
  deriving DecidableEq, Repr

structure Task where
  id : JSVal
  title : String
  xpReward : Int
  deriving DecidableEq, Repr

/-- A quest; `tasks` is `none` while the object has no `tasks` property. -/
structure Quest where
  id : JSVal
  name : String
  description : String
  tasks : Option (List Task)
  deriving DecidableEq, Repr

structure Badge where
  id : JSVal
  name : String
  deriving DecidableEq, Repr

structure Reward where
  type : String
  name : String
  deriving DecidableEq, Repr

/-! ## Element trees -/

/-- A rendered element tree. `onClick` carries the handler of the element, a
value of the handler type `α`. The `key` attribute is not part of the tree. -/
inductive Html (α : Type) where
  | text (s : String)
  | el (tag : String) (className : Option String) (onClick : Option α)
      (children : List (Html α))

namespace Html

mutual
/-- All text nodes of a tree, in document order. -/
def texts {α : Type} : Html α → List String
  | text s => [s]
  | el _ _ _ cs => textsList cs
/-- Text nodes of a list of trees. -/
def textsList {α : Type} : List (Html α) → List String
  | [] => []
  | c :: cs => texts c ++ textsList cs
end

mutual
/-- All `onClick` handlers of a tree, in document order. -/
def handlers {α : Type} : Html α → List α
  | text _ => []
  | el _ _ none cs => handlersList cs
  | el _ _ (some h) cs => h :: handlersList cs
/-- Handlers of a list of trees. -/
def handlersList {α : Type} : List (Html α) → List α
  | [] => []
  | c :: cs => handlers c ++ handlersList cs
end

mutual
/-- Whether some element of the tree has the given class name. -/
def hasClass {α : Type} (cls : String) : Html α → Bool
  | text _ => false
  | el _ c _ cs => (c == some cls) || hasClassList cls cs
/-- Whether some element of a list of trees has the given class name. -/
def hasClassList {α : Type} (cls : String) : List (Html α) → Bool
  | [] => false
  | c :: cs => hasClass cls c || hasClassList cls cs
end

end Html

/-! ## Network -/

/-- What one `fetch(url)` does: the promise rejects with an error carrying
`message`, or it resolves to a response with its `ok` flag and the outcome of
`response.json()` (the decoded body, or the message of the error it rejects
with). -/
inductive FetchResult (α : Type) where
  | rejected (message : String)
  | response (ok : Bool) (json : Except String α)

/-- The `fetch` function restricted to the endpoints whose body decodes to
`α`. -/
abbrev Fetch (α : Type) := String → FetchResult α

/-- An `async` function run to its end: the URLs it requested, in the order of
the calls, and the update its setters apply to the component state. -/
structure Run (σ : Type) where
  requests : List String
  update : σ → σ

/-! ## TopicSelectionPage -/

namespace TopicSelectionPage

/-- The three `useState` cells of `TopicSelectionPage`. -/
structure State where
  topics : List Topic
  loading : Bool
  error : Option String
  deriving DecidableEq, Repr

/-- State of the first render: `useState([])`, `useState(true)`,
`useState(null)`. -/
def initial : State := { topics := [], loading := true, error := none }

/-- The `try` block of `fetchTopics`: the data handed to `setTopics`, or the
message of the error that reaches `catch`. -/
def fetchTopicsTry (fetch : Fetch (List Topic)) : Except String (List Topic) :=
  match fetch "/api/topics" with
  | .rejected m => .error m
  | .response false _ => .error "Network response was not ok"
  | .response true (.error m) => .error m
  | .response true (.ok data) => .ok data

/-- The function `fetchTopics`: one request, then `setTopics(data)` or
`setError(error.message)`, and `setLoading(false)` in `finally`. -/
def fetchTopics (fetch : Fetch (List Topic)) : Run State where
  requests := ["/api/topics"]
  update := fun s =>
    match fetchTopicsTry fetch with
    | .ok data => { s with topics := data, loading := false }
    | .error m => { s with error := some m, loading := false }

/-- One topic card. -/
def topicCard {α : Type} (onSelectTopic : JSVal → α) (topic : Topic) : Html α :=
  .el "div" (some "topic-card") (some (onSelectTopic topic.id))
    [ .el "h2" none none [.text topic.name],
      .el "p" none none [.text topic.description] ]

/-- The element returned by the component function. -/
def render {α : Type} (onSelectTopic : JSVal → α) (s : State) : Option (Html α) :=
  if s.loading then
    some (.el "div" none none [.text "Loading..."])
  else if errorTruthy s.error then
    some (.el "div" none none [.text "Error: ", .text (s.error.getD "")])
  else
    some (.el "div" none none
      [ .el "h1" none none [.text "Select a Topic"],
        .el "div" (some "topic-selection-page") none
          (s.topics.map (topicCard onSelectTopic)) ])

/-- A mounted component: its state and whether the `fetchTopics` call started
by the mount effect has not settled yet. -/
structure Instance where
  state : State
  inflight : Bool

/-- The mount: first render, then the effect (dependency list `[]`) starts
`fetchTopics`. -/
def mount : Instance := { state := initial, inflight := true }

/-- What can happen to a mounted component: the parent re-renders it (the
effect does not run again), or the pending call settles against `fetch`. -/
inductive Event where
  | rerender
  | settle (fetch : Fetch (List Topic))

/-- One step of the lifecycle. -/
def step (c : Instance) : Event → Instance
  | .rerender => c
  | .settle fetch =>
    if c.inflight then { state := (fetchTopics fetch).update c.state, inflight := false }
    else c

/-- The lifecycle along a sequence of events. -/
def run (c : Instance) (es : List Event) : Instance := es.foldl step c

end TopicSelectionPage

/-! ## BadgeDisplay -/

namespace BadgeDisplay

/-- The three `useState` cells of `BadgeDisplay`. -/
structure State where
  badges : List Badge
  loading : Bool
  error : Option String
  deriving DecidableEq, Repr

/-- State of the first render. -/
def initial : State := { badges := [], loading := true, error := none }

/-- The `try` block of `fetchBadges`. -/
def fetchBadgesTry (fetch : Fetch (List Badge)) (userId : JSVal) :
    Except String (List Badge) :=
  match fetch ("/api/users/" ++ userId.toStr ++ "/badges") with
  | .rejected m => .error m
  | .response false _ => .error "Network response was not ok"
  | .response true (.error m) => .error m
  | .response true (.ok data) => .ok data

/-- The function `fetchBadges` of the effect run for `userId`. -/
def fetchBadges (fetch : Fetch (List Badge)) (userId : JSVal) : Run State where
  requests := ["/api/users/" ++ userId.toStr ++ "/badges"]
  update := fun s =>
    match fetchBadgesTry fetch userId with
    | .ok data => { s with badges := data, loading := false }
    | .error m => { s with error := some m, loading := false }

/-- The requests one run of the effect issues: none behind the `!userId`
guard, those of `fetchBadges` otherwise. -/
def effectRequests (fetch : Fetch (List Badge)) (userId : JSVal) : List String :=
  if !userId.truthy then [] else (fetchBadges fetch userId).requests

/-- One badge item. -/
def badgeItem {α : Type} (badge : Badge) : Html α :=
  .el "li" (some "badge-item") none
    [ .el "div" (some "badge-icon") none [.text "🎉"],
      .el "span" none none [.text badge.name] ]

/-- The element returned by the component function. -/
def render {α : Type} (userId : JSVal) (s : State) : Option (Html α) :=
  if s.loading then
    some (.el "div" none none [.text "Loading badges..."])
  else if errorTruthy s.error then
    some (.el "div" none none [.text "Error: ", .text (s.error.getD "")])
  else if !userId.truthy then
    none
  else
    some (.el "div" (some "badge-display") none
      [ .el "h2" none none [.text "Your Badges"],
        .el "ul" (some "badge-list") none (s.badges.map badgeItem) ])

/-- A mounted component: the current prop, the state, and the `userId` captured
by every `fetchBadges` call that has started and not settled. -/
structure Instance where
  userId : JSVal
  state : State
  inflight : List JSVal

/-- The effect body, run after a render in which `userId` changed. -/
def effect (c : Instance) : Instance :=
  if !c.userId.truthy then { c with state := { c.state with loading := false } }
  else { c with inflight := c.inflight ++ [c.userId] }

/-- The first render: initial state, effect not yet run. -/
def firstRender (userId : JSVal) : Instance :=
  { userId := userId, state := initial, inflight := [] }

/-- The mount: first render followed by the effect. -/
def mount (userId : JSVal) : Instance := effect (firstRender userId)

/-- What can happen to a mounted component: the parent passes a `userId` (the
effect runs when it differs from the previous one), or the `i`-th pending call
settles against `fetch`. -/
inductive Event where
  | setUserId (k : JSVal)
  | settle (i : Nat) (fetch : Fetch (List Badge))

/-- One step of the lifecycle. -/
def step (c : Instance) : Event → Instance
  | .setUserId k => if k = c.userId then c else effect { c with userId := k }
  | .settle i fetch =>
    match c.inflight[i]? with
    | none => c
    | some k =>
      { c with state := (fetchBadges fetch k).update c.state,
               inflight := c.inflight.eraseIdx i }

/-- The lifecycle along a sequence of events. -/
def run (c : Instance) (es : List Event) : Instance := es.foldl step c

/-- The element on screen. -/
def view {α : Type} (c : Instance) : Option (Html α) := render c.userId c.state

end BadgeDisplay

/-! ## QuestPage -/

/-- The message a settled promise rejected with, if it rejected. -/
def rejection? {α : Type} : Except String α → Option String
  | .ok _ => none
  | .error m => some m

/-- The values of a list of fulfilled promises, in list order; the message of
the first rejected one in list order otherwise. -/
def allValues {α : Type} : List (Except String α) → Except String (List α)
  | [] => .ok []
  | .error m :: _ => .error m
  | .ok v :: rs =>
    match allValues rs with
    | .ok vs => .ok (v :: vs)
    | .error m => .error m

/-- The call `Promise.all(promises)`. `results` is what each promise settles
to, in array order; `order` lists the array indices in the order in which the
promises settle. The result rejects with the reason of the first promise to
reject, and fulfils with the values in array order when none rejects. -/
def promiseAll {α : Type} (results : List (Except String α)) (order : List Nat) :
    Except String (List α) :=
  match order.findSome? (fun i => results[i]?.bind rejection?) with
  | some m => .error m
  | none => allValues results

namespace QuestPage

/-- The three `useState` cells of `QuestPage`. -/
structure State where
  quests : List Quest
  loading : Bool
  error : Option String
  deriving DecidableEq, Repr

/-- State of the first render. -/
def initial : State := { quests := [], loading := true, error := none }

/-- The two endpoints `fetchQuestsAndTasks` calls. -/
structure Net where
  quests : Fetch (List Quest)
  tasks : Fetch (List Task)

/-- URL of the quests request. -/
def questsUrl (topicId : JSVal) : String := "/api/topics/" ++ topicId.toStr ++ "/quests"

/-- URL of the tasks request of a quest. -/
def tasksUrl (quest : Quest) : String := "/api/quests/" ++ quest.id.toStr ++ "/tasks"

/-- The `async (quest) => ...` callback handed to `questsData.map`: what its
promise settles to. -/
def fetchTasks (net : Net) (quest : Quest) : Except String Quest :=
  match net.tasks (tasksUrl quest) with
  | .rejected m => .error m
  | .response false _ => .error ("Failed to fetch tasks for quest " ++ quest.id.toStr)
  | .response true (.error m) => .error m
  | .response true (.ok tasksData) => .ok { quest with tasks := some tasksData }

/-- The `try` block of `fetchQuestsAndTasks`: the array handed to `setQuests`,
or the message of the error that reaches `catch`. -/
def fetchQuestsAndTasksTry (net : Net) (order : List Nat) (topicId : JSVal) :
    Except String (List Quest) :=
  match net.quests (questsUrl topicId) with
  | .rejected m => .error m
  | .response false _ => .error "Failed to fetch quests"
  | .response true (.error m) => .error m
  | .response true (.ok questsData) => promiseAll (questsData.map (fetchTasks net)) order

/-- The requests of `fetchQuestsAndTasks`: the quests request and, once it has
answered ok with a decoded array, one tasks request per quest (every callback
of `map` calls `fetch` before its first `await`). -/
def fetchQuestsAndTasksRequests (net : Net) (topicId : JSVal) : List String :=
  questsUrl topicId ::
    match net.quests (questsUrl topicId) with
    | .response true (.ok questsData) => questsData.map tasksUrl
    | _ => []

/-- The function `fetchQuestsAndTasks` of the effect run for `topicId`. -/
def fetchQuestsAndTasks (net : Net) (order : List Nat) (topicId : JSVal) : Run State where
  requests := fetchQuestsAndTasksRequests net topicId
  update := fun s =>
    match fetchQuestsAndTasksTry net order topicId with
    | .ok questsWithTasks => { s with quests := questsWithTasks, loading := false }
    | .error m => { s with error := some m, loading := false }

/-- The requests one run of the effect issues: none behind the `!topicId`
guard, those of `fetchQuestsAndTasks` otherwise. -/
def effectRequests (net : Net) (order : List Nat) (topicId : JSVal) : List String :=
  if !topicId.truthy then [] else (fetchQuestsAndTasks net order topicId).requests

/-- One task item. -/
def taskItem {α : Type} (task : Task) : Html α :=
  .el "li" (some "task-item") none
    [ .el "strong" none none [.text task.title],
      .text " - ", .text (toString task.xpReward), .text " XP" ]

/-- One quest item; `quest.tasks && quest.tasks.map(...)` renders nothing when
the quest has no `tasks`. -/
def questItem {α : Type} (quest : Quest) : Html α :=
  .el "li" (some "quest-item") none
    [ .el "h3" none none [.text quest.name],
      .el "p" none none [.text quest.description],
      .el "ul" (some "task-list") none
        (match quest.tasks with
         | none => []
         | some tasks => tasks.map taskItem) ]

/-- The list view of the given quests. -/
def listView {α : Type} (quests : List Quest) : Html α :=
  .el "div" (some "quest-page") none
    [ .el "h2" none none [.text "Quests"],
      .el "ul" (some "quest-list") none (quests.map questItem) ]

/-- The element returned by the component function. -/
def render {α : Type} (topicId : JSVal) (s : State) : Option (Html α) :=
  if s.loading then
    some (.el "div" none none [.text "Loading quests..."])
  else if errorTruthy s.error then
    some (.el "div" none none [.text "Error: ", .text (s.error.getD "")])
  else if !topicId.truthy then
    some (.el "div" none none [.text "Select a topic to see the quests."])
  else
    some (listView s.quests)

/-- A mounted component: the current prop, the state, and the `topicId`
captured by every `fetchQuestsAndTasks` call that has started and not
settled. -/
structure Instance where
  topicId : JSVal
  state : State
  inflight : List JSVal

/-- The effect body, run after a render in which `topicId` changed. -/
def effect (c : Instance) : Instance :=
  if !c.topicId.truthy then { c with state := { c.state with loading := false } }
  else { c with inflight := c.inflight ++ [c.topicId] }

/-- The first render: initial state, effect not yet run. -/
def firstRender (topicId : JSVal) : Instance :=
  { topicId := topicId, state := initial, inflight := [] }

/-- The mount: first render followed by the effect. -/
def mount (topicId : JSVal) : Instance := effect (firstRender topicId)

/-- What can happen to a mounted component: the parent passes a `topicId` (the
effect runs when it differs from the previous one), or the `i`-th pending call
settles, having seen the network `net` and the settling order `order` of its
tasks requests. -/
inductive Event where
  | setTopicId (k : JSVal)
  | settle (i : Nat) (net : Net) (order : List Nat)

/-- One step of the lifecycle. -/
def step (c : Instance) : Event → Instance
  | .setTopicId k => if k = c.topicId then c else effect { c with topicId := k }
  | .settle i net order =>
    match c.inflight[i]? with
    | none => c
    | some k =>
      { c with state := (fetchQuestsAndTasks net order k).update c.state,
               inflight := c.inflight.eraseIdx i }

/-- The lifecycle along a sequence of events. -/
def run (c : Instance) (es : List Event) : Instance := es.foldl step c

/-- The element on screen. -/
def view {α : Type} (c : Instance) : Option (Html α) := render c.topicId c.state

end QuestPage

/-! ## StudyMaterial, RewardModal, App -/

/-- The component `StudyMaterial`; `material` is `none` when the prop is not
passed. -/
def StudyMaterial {α : Type} (material : Option String) : Html α :=
  .el "div" none none
    [ .el "h2" none none [.text "Study Material"],
      .el "p" none none
        [.text (match material with
                | some m => if m != "" then m else "Study material will be displayed here."
                | none => "Study material will be displayed here.")] ]

/-- The component `RewardModal`. The `Confetti` child is an element of the
`react-confetti` package and is kept as a leaf. -/
def RewardModal {α : Type} (reward : Option Reward) (onClose : α) : Option (Html α) :=
  match reward with
  | none => none
  | some reward =>
    some (.el "div" (some "reward-modal") none
      [ .el "Confetti" none none [],
        .el "div" (some "reward-modal-content") none
          [ .el "h2" none none [.text "Congratulations!"],
            .el "p" none none [.text "You\x27ve earned a new ", .text reward.type, .text "!"],
            .el "h3" none none [.text reward.name],
            .el "button" none (some onClose) [.text "Claim"] ] ])

namespace App

/-- The two `useState` cells of `App`. -/
structure State where
  selectedTopicId : JSVal
  reward : Option Reward
  deriving DecidableEq, Repr

/-- State of the first render. -/
def initial : State := { selectedTopicId := .null, reward := none }

/-- The constant `userId`. -/
def userId : JSVal := .str "user-1"

/-- The handler `awardReward`. -/
def awardReward (s : State) : State :=
  { s with reward := some { type := "Badge", name := "First Step" } }

/-- The handler `closeRewardModal`. -/
def closeRewardModal (s : State) : State := { s with reward := none }

/-- The setter `setSelectedTopicId`, passed as `onSelectTopic`. -/
def setSelectedTopicId (id : JSVal) (s : State) : State := { s with selectedTopicId := id }

/-- The element returned by `App`, given the states of its three fetching
children. -/
def render (s : State) (t : TopicSelectionPage.State) (q : QuestPage.State)
    (b : BadgeDisplay.State) : Html (State → State) :=
  .el "div" (some "App") none
    [ .el "header" (some "App-header") none
        [ .el "h1" none none [.text "Lean Programming Guide"],
          .el "button" none (some awardReward) [.text "Award Reward (Test)"] ],
      .el "main" none none
        ((TopicSelectionPage.render setSelectedTopicId t).toList ++
         (QuestPage.render s.selectedTopicId q).toList ++
         (BadgeDisplay.render userId b).toList ++
         [StudyMaterial none] ++
         (RewardModal s.reward closeRewardModal).toList) ]

end App

/-! ## Concrete inputs -/

namespace Example

/-- Two tasks. -/
def t1 : Task := { id := .num 11, title := "Read", xpReward := 10 }
/-- Second task. -/
def t2 : Task := { id := .num 12, title := "Write", xpReward := 20 }

/-- Quest 1 as the quests endpoint returns it. -/
def quest1 : Quest := { id := .num 1, name := "Basics", description := "Start here", tasks := none }
/-- Quest 2 as the quests endpoint returns it. -/
def quest2 : Quest := { id := .num 2, name := "Proofs", description := "Go on", tasks := none }
/-- Quest 3, a quest of another topic. -/
def quest3 : Quest := { id := .num 3, name := "Tactics", description := "More", tasks := none }

/-- The tasks of each quest id: `[t1, t2]` for quest 1, none for the others. -/
def tasksOf : JSVal → List Task
  | .num 1 => [t1, t2]
  | _ => []

/-- A network on which every request succeeds: topic 1 has quests 1 and 2,
every other topic has quest 3; quest 1 has tasks `t1` and `t2`. -/
def netOk : QuestPage.Net where
  quests := fun url =>
    if url = "/api/topics/1/quests" then .response true (.ok [quest1, quest2])
    else .response true (.ok [quest3])
  tasks := fun url =>
    if url = "/api/quests/1/tasks" then .response true (.ok [t1, t2])
    else .response true (.ok [])

/-- A network on which the tasks request of quest 2 answers with status 500
and every other request succeeds. -/
def netTasks2Fail : QuestPage.Net where
  quests := fun _ => .response true (.ok [quest1, quest2])
  tasks := fun url =>
    if url = "/api/quests/2/tasks" then .response false (.error "Unexpected token")
    else .response true (.ok [t1, t2])

/-- A network on which the tasks request of quest 2 rejects with the given
message and every other request succeeds. -/
def netTasksReject (m : String) : QuestPage.Net where
  quests := fun _ => .response true (.ok [quest1, quest2])
  tasks := fun url =>
    if url = "/api/quests/2/tasks" then .rejected m
    else .response true (.ok [t1, t2])

/-- A network on which every request rejects with the given message. -/
def netReject (m : String) : QuestPage.Net where
  quests := fun _ => .rejected m
  tasks := fun _ => .rejected m

/-- A badge. -/
def badge1 : Badge := { id := .num 7, name := "First Step" }

/-- A badges endpoint that succeeds with one badge. -/
def badgesOk : Fetch (List Badge) := fun _ => .response true (.ok [badge1])

/-- A badges endpoint whose requests reject with the given message. -/
def badgesReject (m : String) : Fetch (List Badge) := fun _ => .rejected m

/-- A topic. -/
def topic1 : Topic := { id := .num 1, name := "Lean", description := "Theorem proving" }

/-- A topics endpoint that succeeds with one topic. -/
def topicsOk : Fetch (List Topic) := fun _ => .response true (.ok [topic1])

/-- A topics endpoint whose requests reject with the given message. -/
def topicsReject (m : String) : Fetch (List Topic) := fun _ => .rejected m

end Example

/-! ## Promise.all and strings -/

theorem str_append_ne_empty (p x : String) (hp : p ≠ "") : p ++ x ≠ "" := by
  intro h
  have h1 := congrArg String.data h
  rw [String.data_append] at h1
  have h2 : p.data = [] := (List.append_eq_nil.mp h1).1
  exact hp (String.ext h2)

theorem allValues_map_ok {α β : Type} (f : α → Except String β) (g : α → β) (xs : List α)
    (h : ∀ x ∈ xs, f x = .ok (g x)) : allValues (xs.map f) = .ok (xs.map g) := by
  induction xs with
  | nil => rfl
  | cons x xs ih =>
    have hx := h x (List.mem_cons_self _ _)
    have ih2 := ih (fun y hy => h y (List.mem_cons_of_mem _ hy))
    simp only [List.map_cons, hx, allValues, ih2]

theorem allValues_error_mem {α : Type} (rs : List (Except String α)) (m : String)
    (h : allValues rs = .error m) : Except.error m ∈ rs := by
  induction rs with
  | nil => simp [allValues] at h
  | cons r rs ih =>
    cases r with
    | error e =>
      simp only [allValues] at h
      cases h
      exact List.mem_cons_self _ _
    | ok v =>
      simp only [allValues] at h
      split at h
      · cases h
      · next m2 hm =>
        cases h
        exact List.mem_cons_of_mem _ (ih hm)

theorem allValues_error_of_mem {α : Type} (rs : List (Except String α)) (m : String)
    (h : Except.error m ∈ rs) : ∃ m2, allValues rs = .error m2 := by
  induction rs with
  | nil => simp at h
  | cons r rs ih =>
    cases r with
    | error e => exact ⟨e, rfl⟩
    | ok v =>
      have h2 : Except.error m ∈ rs := by
        rcases List.mem_cons.mp h with h | h
        · cases h
        · exact h
      obtain ⟨m2, hm2⟩ := ih h2
      exact ⟨m2, by simp only [allValues, hm2]⟩

theorem findSome_rejection_mem {α : Type} (rs : List (Except String α)) (order : List Nat)
    (m : String) (h : order.findSome? (fun i => rs[i]?.bind rejection?) = some m) :
    Except.error m ∈ rs := by
  obtain ⟨i, _, hi⟩ := List.exists_of_findSome?_eq_some h
  cases hr : rs[i]? with
  | none => simp [hr] at hi
  | some r =>
    simp only [hr, Option.some_bind] at hi
    cases r with
    | ok v => simp [rejection?] at hi
    | error e =>
      simp only [rejection?, Option.some.injEq] at hi
      subst hi
      exact List.getElem?_mem hr

theorem promiseAll_error_mem {α : Type} (rs : List (Except String α)) (order : List Nat)
    (m : String) (h : promiseAll rs order = .error m) : Except.error m ∈ rs := by
  unfold promiseAll at h
  split at h
  · next m2 hm =>
    cases h
    exact findSome_rejection_mem rs order _ hm
  · exact allValues_error_mem rs m h

theorem promiseAll_error_of_mem {α : Type} (rs : List (Except String α)) (order : List Nat)
    (m : String) (h : Except.error m ∈ rs) : ∃ m2, promiseAll rs order = .error m2 := by
  unfold promiseAll
  split
  · next m2 _ => exact ⟨m2, rfl⟩
  · exact allValues_error_of_mem rs m h

theorem promiseAll_map_ok {α β : Type} (f : α → Except String β) (g : α → β) (xs : List α)
    (order : List Nat) (h : ∀ x ∈ xs, f x = .ok (g x)) :
    promiseAll (xs.map f) order = .ok (xs.map g) := by
  unfold promiseAll
  split
  · next m hm =>
    have := findSome_rejection_mem _ _ _ hm
    obtain ⟨x, hx, hfx⟩ := List.mem_map.mp this
    rw [h x hx] at hfx
    cases hfx
  · exact allValues_map_ok f g xs h

/-! ## QuestPage: the two outcomes of a settled call -/

namespace QuestPage

theorem quest_step_settle (c : Instance) (i : Nat) (k : JSVal) (net : Net) (order : List Nat)
    (hi : c.inflight[i]? = some k) :
    step c (.settle i net order)
      = { c with state := (fetchQuestsAndTasks net order k).update c.state,
                 inflight := c.inflight.eraseIdx i } := by
  simp only [step, hi]

theorem quest_update_loading (net : Net) (order : List Nat) (k : JSVal) (s : State) :
    ((fetchQuestsAndTasks net order k).update s).loading = false := by
  simp only [fetchQuestsAndTasks]
  split <;> rfl

theorem quest_step_settle_ok (c : Instance) (i : Nat) (k : JSVal) (net : Net) (order : List Nat)
    (qs : List Quest) (hi : c.inflight[i]? = some k)
    (h : fetchQuestsAndTasksTry net order k = .ok qs) :
    (step c (.settle i net order)).state = { c.state with quests := qs, loading := false }
      ∧ (step c (.settle i net order)).topicId = c.topicId := by
  simp only [step, hi, fetchQuestsAndTasks, h, and_self]

theorem quest_step_settle_error (c : Instance) (i : Nat) (k : JSVal) (net : Net) (order : List Nat)
    (m : String) (hi : c.inflight[i]? = some k)
    (h : fetchQuestsAndTasksTry net order k = .error m) :
    (step c (.settle i net order)).state = { c.state with error := some m, loading := false }
      ∧ (step c (.settle i net order)).topicId = c.topicId := by
  simp only [step, hi, fetchQuestsAndTasks, h, and_self]

theorem quest_render_error {α : Type} (topicId : JSVal) (s : State) (m : String)
    (hl : s.loading = false) (he : s.error = some m) (hm : m ≠ "") :
    render topicId s
      = some (Html.el "div" none none [.text "Error: ", .text m] : Html α) := by
  simp [render, hl, he, errorTruthy, hm]

theorem tasks_message_ne_empty (q : Quest) :
    "Failed to fetch tasks for quest " ++ q.id.toStr ≠ "" :=
  str_append_ne_empty _ _ (by decide)

/-- When every tasks request answers (ok with a body, or not ok), a rejection of
the `map` callback is the fixed message of a quest whose request was not ok. -/
theorem fetchTasks_error_inv (net : Net) (q : Quest) (m : String)
    (hq : (∃ ts, net.tasks (tasksUrl q) = .response true (.ok ts))
        ∨ (∃ b, net.tasks (tasksUrl q) = .response false b))
    (h : fetchTasks net q = .error m) :
    (∃ b, net.tasks (tasksUrl q) = .response false b)
      ∧ m = "Failed to fetch tasks for quest " ++ q.id.toStr := by
  rcases hq with ⟨ts, hts⟩ | ⟨b, hb⟩
  · simp [fetchTasks, hts] at h
  · refine ⟨⟨b, hb⟩, ?_⟩
    simp only [fetchTasks, hb, Except.error.injEq] at h
    exact h.symm

/-- C1. QuestPage, all-or-nothing failure. For every pending call for `k`
whose quests request succeeded with `qs` and whose tasks requests all answered,
at least one of them with a non-ok status: when the call settles, the quests
cell is unchanged, loading is false, error is the message
`Failed to fetch tasks for quest <id>` of a quest whose request was not ok, and
the component renders exactly the error view, which holds no quest list. -/
theorem C1_tasks_failure_all_or_nothing (α : Type) (c : Instance) (i : Nat) (k : JSVal) (net : Net)
    (order : List Nat) (qs : List Quest)
    (hi : c.inflight[i]? = some k)
    (hq : net.quests (questsUrl k) = .response true (.ok qs))
    (hall : ∀ q ∈ qs, (∃ ts, net.tasks (tasksUrl q) = .response true (.ok ts))
        ∨ (∃ b, net.tasks (tasksUrl q) = .response false b))
    (hfail : ∃ q ∈ qs, ∃ b, net.tasks (tasksUrl q) = .response false b) :
    (step c (.settle i net order)).state.quests = c.state.quests
      ∧ (step c (.settle i net order)).state.loading = false
      ∧ ∃ q ∈ qs, (∃ b, net.tasks (tasksUrl q) = .response false b)
          ∧ (step c (.settle i net order)).state.error
              = some ("Failed to fetch tasks for quest " ++ q.id.toStr)
          ∧ (view (step c (.settle i net order)) : Option (Html α))
              = some (.el "div" none none
                  [.text "Error: ", .text ("Failed to fetch tasks for quest " ++ q.id.toStr)])
          ∧ ∀ h : Html α, view (step c (.settle i net order)) = some h →
              h.hasClass "quest-list" = false ∧ h.hasClass "quest-item" = false := by
  obtain ⟨q0, hq0, b0, hb0⟩ := hfail
  have hmem : Except.error ("Failed to fetch tasks for quest " ++ q0.id.toStr)
      ∈ qs.map (fetchTasks net) :=
    List.mem_map.mpr ⟨q0, hq0, by simp only [fetchTasks, hb0]⟩
  obtain ⟨m, hm⟩ := promiseAll_error_of_mem _ order _ hmem
  have hm2 := promiseAll_error_mem _ _ _ hm
  obtain ⟨q, hqmem, hfq⟩ := List.mem_map.mp hm2
  obtain ⟨hnotok, hmsg⟩ := fetchTasks_error_inv net q m (hall q hqmem) hfq
  have htry : fetchQuestsAndTasksTry net order k = .error m := by
    simp only [fetchQuestsAndTasksTry, hq, hm]
  obtain ⟨hst, htid⟩ := quest_step_settle_error c i k net order m hi htry
  have hview : (view (step c (.settle i net order)) : Option (Html α))
      = some (.el "div" none none [.text "Error: ", .text m]) := by
    unfold view
    exact quest_render_error _ _ m (by rw [hst]) (by rw [hst]) (by
      rw [hmsg]; exact tasks_message_ne_empty q)
  refine ⟨by rw [hst], by rw [hst], q, hqmem, hnotok, by rw [hst, hmsg], by rw [hview, hmsg], ?_⟩
  intro h hh
  rw [hview] at hh
  cases hh
  constructor <;> simp [Html.hasClass, Html.hasClassList]

/-- Witness of C1: the tasks request of quest 1 succeeds and that of quest 2 answers 500. -/
theorem C1_tasks_failure_all_or_nothing_witness :
    (step (mount (.num 1)) (.settle 0 Example.netTasks2Fail [0, 1])).state.quests = []
      ∧ (step (mount (.num 1)) (.settle 0 Example.netTasks2Fail [0, 1])).state.error
          = some "Failed to fetch tasks for quest 2" := by
  have h := C1_tasks_failure_all_or_nothing Unit (mount (.num 1)) 0 (.num 1) Example.netTasks2Fail
    [0, 1] [Example.quest1, Example.quest2] rfl rfl
    (by
      intro q hq
      simp only [List.mem_cons, List.mem_singleton, List.not_mem_nil, or_false] at hq
      rcases hq with rfl | rfl
      · exact Or.inl ⟨[Example.t1, Example.t2], rfl⟩
      · exact Or.inr ⟨.error "Unexpected token", rfl⟩)
    ⟨Example.quest2, by decide, .error "Unexpected token", rfl⟩
  exact ⟨h.1, by decide⟩

/-- The merged array when the quests request and every tasks request succeed. -/
theorem fetchQuestsAndTasksTry_ok (net : Net) (order : List Nat) (k : JSVal)
    (qs : List Quest) (tasksOf : JSVal → List Task)
    (hq : net.quests (questsUrl k) = .response true (.ok qs))
    (ht : ∀ q ∈ qs, net.tasks (tasksUrl q) = .response true (.ok (tasksOf q.id))) :
    fetchQuestsAndTasksTry net order k
      = .ok (qs.map (fun q => { q with tasks := some (tasksOf q.id) })) := by
  simp only [fetchQuestsAndTasksTry, hq]
  apply promiseAll_map_ok
  intro q hqm
  simp only [fetchTasks, ht q hqm]

/-- C2. QuestPage merge. For every quests response `qs`, every assignment
`tasksOf` of successful task responses to quest ids and every settling order of
the tasks requests, the quests cell stored when the call settles has the length
of `qs`, and its `j`-th element is `qs[j]` with `tasks` set to the array
returned for `qs[j].id`. -/
theorem C2_merge_preserves_order (c : Instance) (i : Nat) (k : JSVal) (net : Net)
    (order : List Nat) (qs : List Quest) (tasksOf : JSVal → List Task)
    (hi : c.inflight[i]? = some k)
    (hq : net.quests (questsUrl k) = .response true (.ok qs))
    (ht : ∀ q ∈ qs, net.tasks (tasksUrl q) = .response true (.ok (tasksOf q.id))) :
    (step c (.settle i net order)).state.quests
        = qs.map (fun q => { q with tasks := some (tasksOf q.id) })
      ∧ (step c (.settle i net order)).state.quests.length = qs.length
      ∧ ∀ (j : Nat) (hj : j < qs.length),
          (step c (.settle i net order)).state.quests[j]?
            = some { qs[j] with tasks := some (tasksOf qs[j].id) } := by
  have htry := fetchQuestsAndTasksTry_ok net order k qs tasksOf hq ht
  obtain ⟨hst, _⟩ := quest_step_settle_ok c i k net order _ hi htry
  rw [hst]
  refine ⟨rfl, by simp, ?_⟩
  intro j hj
  simp [List.getElem?_map, List.getElem?_eq_getElem hj]

/-- Witness of C2: quests 1 and 2 with task responses `[t1, t2]` and `[]`, the
second tasks request settling first. -/
theorem C2_merge_preserves_order_witness :
    (step (mount (.num 1)) (.settle 0 Example.netOk [1, 0])).state.quests
      = [ { Example.quest1 with tasks := some [Example.t1, Example.t2] },
          { Example.quest2 with tasks := some [] } ] := by
  have h := C2_merge_preserves_order (mount (.num 1)) 0 (.num 1) Example.netOk [1, 0]
    [Example.quest1, Example.quest2] Example.tasksOf rfl rfl
    (by
      intro q hq
      simp only [List.mem_cons, List.mem_singleton, List.not_mem_nil, or_false] at hq
      rcases hq with rfl | rfl <;> rfl)
  exact h.1

/-- Counterexample to C3: the call for topic 1 is pending when the key becomes 2;
the call for topic 2 settles and its quest is stored; then the call for topic 1
settles and replaces the stored quests, while the key is still 2. -/
theorem C3_stale_overwrites_counterexample :
    (run (mount (.num 1)) [.setTopicId (.num 2), .settle 1 Example.netOk [0]]).topicId = .num 2
      ∧ (run (mount (.num 1)) [.setTopicId (.num 2), .settle 1 Example.netOk [0]]).inflight
          = [.num 1]
      ∧ (run (mount (.num 1)) [.setTopicId (.num 2), .settle 1 Example.netOk [0]]).state.quests
          = [ { Example.quest3 with tasks := some [] } ]
      ∧ (run (mount (.num 1))
          [.setTopicId (.num 2), .settle 1 Example.netOk [0],
           .settle 0 Example.netOk [0, 1]]).topicId = .num 2
      ∧ (run (mount (.num 1))
          [.setTopicId (.num 2), .settle 1 Example.netOk [0],
           .settle 0 Example.netOk [0, 1]]).state.quests
          = [ { Example.quest1 with tasks := some [Example.t1, Example.t2] },
              { Example.quest2 with tasks := some [] } ]
      ∧ (run (mount (.num 1))
          [.setTopicId (.num 2), .settle 1 Example.netOk [0],
           .settle 0 Example.netOk [0, 1]]).state
          ≠ (run (mount (.num 1))
              [.setTopicId (.num 2), .settle 1 Example.netOk [0]]).state := by
  decide

/-- C3, amended. There is no race guard. When `topicId` changes from `k1` to a
different `k2` while the call for `k1` is pending, the call stays pending, and
when it settles its result is applied whatever the current key: loading
becomes false, on success the quests cell becomes the merged quests of `k1`, on
failure the error cell becomes the message of that failure; the key stays
`k2`. -/
theorem C3_no_race_guard (c : Instance) (i : Nat) (k1 k2 : JSVal) (net : Net)
    (order : List Nat) (hk : c.topicId = k1) (hne : k1 ≠ k2)
    (hi : c.inflight[i]? = some k1) :
    (step c (.setTopicId k2)).topicId = k2
      ∧ (step c (.setTopicId k2)).inflight[i]? = some k1
      ∧ (step (step c (.setTopicId k2)) (.settle i net order)).topicId = k2
      ∧ (step (step c (.setTopicId k2)) (.settle i net order)).state.loading = false
      ∧ (∀ qs, fetchQuestsAndTasksTry net order k1 = .ok qs →
          (step (step c (.setTopicId k2)) (.settle i net order)).state.quests = qs)
      ∧ (∀ m, fetchQuestsAndTasksTry net order k1 = .error m →
          (step (step c (.setTopicId k2)) (.settle i net order)).state.error = some m) := by
  have hne2 : ¬ k2 = c.topicId := by rw [hk]; exact fun h => hne h.symm
  have hlt : i < c.inflight.length := by
    rcases List.getElem?_eq_some.mp hi with ⟨h, _⟩
    exact h
  have h1 : (step c (.setTopicId k2)).topicId = k2 := by
    simp only [step, hne2, if_false, effect]
    split <;> rfl
  have h2 : (step c (.setTopicId k2)).inflight[i]? = some k1 := by
    simp only [step, hne2, if_false, effect]
    split
    · exact hi
    · simp only [List.getElem?_append_left hlt, hi]
  refine ⟨h1, h2, ?_, ?_, ?_, ?_⟩
  · rw [quest_step_settle _ i k1 net order h2]
    exact h1
  · rw [quest_step_settle _ i k1 net order h2]
    exact quest_update_loading net order k1 _
  · intro qs hqs
    exact congrArg State.quests (quest_step_settle_ok _ i k1 net order qs h2 hqs).1
  · intro m hm
    exact congrArg State.error (quest_step_settle_error _ i k1 net order m h2 hm).1

/-- Witness of C3, amended: the quests of topic 1 are stored under key 2. -/
theorem C3_no_race_guard_witness :
    (step (step (mount (.num 1)) (.setTopicId (.num 2)))
        (.settle 0 Example.netOk [0, 1])).topicId = .num 2
      ∧ (step (step (mount (.num 1)) (.setTopicId (.num 2)))
        (.settle 0 Example.netOk [0, 1])).state.quests
        = [ { Example.quest1 with tasks := some [Example.t1, Example.t2] },
            { Example.quest2 with tasks := some [] } ] := by
  have h := C3_no_race_guard (mount (.num 1)) 0 (.num 1) (.num 2) Example.netOk [0, 1]
    rfl (by decide) rfl
  exact ⟨h.2.2.1, h.2.2.2.2.1 _ rfl⟩

end QuestPage

/-! ## BadgeDisplay and TopicSelectionPage: settled calls -/

namespace BadgeDisplay

theorem badge_step_settle (c : Instance) (i : Nat) (k : JSVal) (fetch : Fetch (List Badge))
    (hi : c.inflight[i]? = some k) :
    step c (.settle i fetch)
      = { c with state := (fetchBadges fetch k).update c.state,
                 inflight := c.inflight.eraseIdx i } := by
  simp only [step, hi]

theorem badge_update_loading (fetch : Fetch (List Badge)) (k : JSVal) (s : State) :
    ((fetchBadges fetch k).update s).loading = false := by
  simp only [fetchBadges]
  split <;> rfl

theorem badge_update_ok (fetch : Fetch (List Badge)) (k : JSVal) (s : State) (xs : List Badge)
    (h : fetchBadgesTry fetch k = .ok xs) :
    (fetchBadges fetch k).update s = { s with badges := xs, loading := false } := by
  simp only [fetchBadges, h]

theorem badge_update_error (fetch : Fetch (List Badge)) (k : JSVal) (s : State) (m : String)
    (h : fetchBadgesTry fetch k = .error m) :
    (fetchBadges fetch k).update s = { s with error := some m, loading := false } := by
  simp only [fetchBadges, h]

theorem badge_render_error {α : Type} (userId : JSVal) (s : State) (m : String)
    (hl : s.loading = false) (he : s.error = some m) (hm : m ≠ "") :
    render userId s
      = some (Html.el "div" none none [.text "Error: ", .text m] : Html α) := by
  simp [render, hl, he, errorTruthy, hm]

theorem badge_step_setUserId_state (c : Instance) (k : JSVal) (hl : c.state.loading = false) :
    (step c (.setUserId k)).state = c.state ∧ (step c (.setUserId k)).userId = k := by
  simp only [step, effect]
  by_cases h : k = c.userId
  · simp [h]
  · simp only [h, if_false]
    split
    · exact ⟨by rw [← hl], rfl⟩
    · exact ⟨rfl, rfl⟩

theorem badge_run_setUserId_state (ks : List JSVal) (c : Instance)
    (hl : c.state.loading = false) : (run c (ks.map .setUserId)).state = c.state := by
  induction ks generalizing c with
  | nil => rfl
  | cons k ks ih =>
    obtain ⟨h1, _⟩ := badge_step_setUserId_state c k hl
    have h2 := ih (step c (.setUserId k)) (by rw [h1]; exact hl)
    simp only [run, List.map_cons, List.foldl_cons] at h2 ⊢
    rw [h2, h1]

end BadgeDisplay

namespace QuestPage

theorem quest_step_setTopicId_state (c : Instance) (k : JSVal) (hl : c.state.loading = false) :
    (step c (.setTopicId k)).state = c.state ∧ (step c (.setTopicId k)).topicId = k := by
  simp only [step, effect]
  by_cases h : k = c.topicId
  · simp [h]
  · simp only [h, if_false]
    split
    · exact ⟨by rw [← hl], rfl⟩
    · exact ⟨rfl, rfl⟩

theorem quest_run_setTopicId_state (ks : List JSVal) (c : Instance)
    (hl : c.state.loading = false) : (run c (ks.map .setTopicId)).state = c.state := by
  induction ks generalizing c with
  | nil => rfl
  | cons k ks ih =>
    obtain ⟨h1, _⟩ := quest_step_setTopicId_state c k hl
    have h2 := ih (step c (.setTopicId k)) (by rw [h1]; exact hl)
    simp only [run, List.map_cons, List.foldl_cons] at h2 ⊢
    rw [h2, h1]

end QuestPage

/-- Counterexample to C4. QuestPage is Ready for topic 1 (its call settled with
success); the key changes to 2: loading stays false and the list of topic 1 is
still rendered, not the loading view. QuestPage is Failed for topic 1; the key
changes to null: the error view is still rendered, not the no-key prompt. -/
theorem C4_no_reset_counterexample :
    (QuestPage.run (QuestPage.mount (.num 1))
        [.settle 0 Example.netOk [0, 1], .setTopicId (.num 2)]).state.loading = false
      ∧ (QuestPage.view (QuestPage.run (QuestPage.mount (.num 1))
          [.settle 0 Example.netOk [0, 1], .setTopicId (.num 2)]) : Option (Html Unit))
          = some (QuestPage.listView
              [ { Example.quest1 with tasks := some [Example.t1, Example.t2] },
                { Example.quest2 with tasks := some [] } ])
      ∧ (QuestPage.view (QuestPage.run (QuestPage.mount (.num 1))
          [.settle 0 Example.netOk [0, 1], .setTopicId (.num 2)]) : Option (Html Unit))
          ≠ some (.el "div" none none [.text "Loading quests..."])
      ∧ (QuestPage.view (QuestPage.run (QuestPage.mount (.num 1))
          [.settle 0 (Example.netReject "boom") [], .setTopicId .null]) : Option (Html Unit))
          = some (.el "div" none none [.text "Error: ", .text "boom"]) := by
  refine ⟨by decide, rfl, ?_, rfl⟩
  intro h
  have h2 : (QuestPage.view (QuestPage.run (QuestPage.mount (.num 1))
          [.settle 0 Example.netOk [0, 1], .setTopicId (.num 2)]) : Option (Html Unit))
          = some (QuestPage.listView
              [ { Example.quest1 with tasks := some [Example.t1, Example.t2] },
                { Example.quest2 with tasks := some [] } ]) := rfl
  rw [h2] at h
  simp [QuestPage.listView] at h

/-- C4, amended. For QuestPage and BadgeDisplay, in every state in which
loading is false (a fetch has completed), passing new keys, any number of
times, with no pending call settling in between, leaves loading false and the
list and the error cell unchanged. The component then renders the error view
when the error cell holds a non-empty message; otherwise the list stored before
under a truthy key (never the loading view), and the no-key view (prompt for
QuestPage, nothing for BadgeDisplay) under a null or otherwise falsy key. -/
theorem C4_key_change_keeps_state (α : Type) (cq : QuestPage.Instance)
    (cb : BadgeDisplay.Instance) (ks : List JSVal) (k : JSVal)
    (hq : cq.state.loading = false) (hb : cb.state.loading = false) :
    ((QuestPage.run cq ((ks ++ [k]).map .setTopicId)).state = cq.state
      ∧ (QuestPage.run cq ((ks ++ [k]).map .setTopicId)).topicId = k
      ∧ (QuestPage.view (QuestPage.run cq ((ks ++ [k]).map .setTopicId)) : Option (Html α))
          = if errorTruthy cq.state.error then
              some (.el "div" none none [.text "Error: ", .text (cq.state.error.getD "")])
            else if k.truthy then some (QuestPage.listView cq.state.quests)
            else some (.el "div" none none [.text "Select a topic to see the quests."]))
    ∧ ((BadgeDisplay.run cb ((ks ++ [k]).map .setUserId)).state = cb.state
      ∧ (BadgeDisplay.run cb ((ks ++ [k]).map .setUserId)).userId = k
      ∧ (BadgeDisplay.view (BadgeDisplay.run cb ((ks ++ [k]).map .setUserId))
            : Option (Html α))
          = if errorTruthy cb.state.error then
              some (.el "div" none none [.text "Error: ", .text (cb.state.error.getD "")])
            else if k.truthy then
              some (.el "div" (some "badge-display") none
                [ .el "h2" none none [.text "Your Badges"],
                  .el "ul" (some "badge-list") none (cb.state.badges.map BadgeDisplay.badgeItem) ])
            else none) := by
  have hqs := QuestPage.quest_run_setTopicId_state ks cq hq
  have hbs := BadgeDisplay.badge_run_setUserId_state ks cb hb
  obtain ⟨hq1, hq2⟩ := QuestPage.quest_step_setTopicId_state
    (QuestPage.run cq (ks.map .setTopicId)) k (by rw [hqs]; exact hq)
  obtain ⟨hb1, hb2⟩ := BadgeDisplay.badge_step_setUserId_state
    (BadgeDisplay.run cb (ks.map .setUserId)) k (by rw [hbs]; exact hb)
  have eq : QuestPage.run cq ((ks ++ [k]).map .setTopicId)
      = QuestPage.step (QuestPage.run cq (ks.map .setTopicId)) (.setTopicId k) := by
    simp [QuestPage.run, List.foldl_append]
  have eb : BadgeDisplay.run cb ((ks ++ [k]).map .setUserId)
      = BadgeDisplay.step (BadgeDisplay.run cb (ks.map .setUserId)) (.setUserId k) := by
    simp [BadgeDisplay.run, List.foldl_append]
  rw [eq, eb]
  rw [hqs] at hq1
  rw [hbs] at hb1
  refine ⟨⟨hq1, hq2, ?_⟩, ⟨hb1, hb2, ?_⟩⟩
  · simp only [QuestPage.view, hq1, hq2, QuestPage.render, hq]
    cases errorTruthy cq.state.error <;> cases k.truthy <;> simp
  · simp only [BadgeDisplay.view, hb1, hb2, BadgeDisplay.render, hb]
    cases errorTruthy cb.state.error <;> cases k.truthy <;> simp

/-- Witness of C4, amended: QuestPage Ready for topic 1 and BadgeDisplay Ready
for user 1, key changed to 3 and then to 2. -/
theorem C4_key_change_keeps_state_witness :
    (QuestPage.run (QuestPage.run (QuestPage.mount (.num 1)) [.settle 0 Example.netOk [0, 1]])
        [.setTopicId (.num 3), .setTopicId (.num 2)]).state
      = (QuestPage.run (QuestPage.mount (.num 1)) [.settle 0 Example.netOk [0, 1]]).state
    ∧ (BadgeDisplay.run
        (BadgeDisplay.run (BadgeDisplay.mount (.num 1)) [.settle 0 Example.badgesOk])
        [.setUserId (.num 3), .setUserId (.num 2)]).state
      = (BadgeDisplay.run (BadgeDisplay.mount (.num 1)) [.settle 0 Example.badgesOk]).state :=
  have h := C4_key_change_keeps_state Unit
    (QuestPage.run (QuestPage.mount (.num 1)) [.settle 0 Example.netOk [0, 1]])
    (BadgeDisplay.run (BadgeDisplay.mount (.num 1)) [.settle 0 Example.badgesOk])
    [.num 3] (.num 2) (by decide) (by decide)
  ⟨h.1.1, h.2.1⟩

namespace TopicSelectionPage

/-- While the mount call is pending the state is the initial one. -/
theorem topic_inflight_initial (es : List Event) :
    (run mount es).inflight = true → (run mount es).state = initial := by
  induction es using List.reverseRecOn with
  | nil => intro _; rfl
  | append_singleton es e ih =>
    simp only [run, List.foldl_append, List.foldl_cons, List.foldl_nil] at ih ⊢
    cases e with
    | rerender => exact ih
    | settle fetch =>
      simp only [step]
      split
      · intro h; cases h
      · exact ih

theorem topic_update_ok (fetch : Fetch (List Topic)) (s : State) (xs : List Topic)
    (h : fetchTopicsTry fetch = .ok xs) :
    (fetchTopics fetch).update s = { s with topics := xs, loading := false } := by
  simp only [fetchTopics, h]

theorem topic_update_error (fetch : Fetch (List Topic)) (s : State) (m : String)
    (h : fetchTopicsTry fetch = .error m) :
    (fetchTopics fetch).update s = { s with error := some m, loading := false } := by
  simp only [fetchTopics, h]

theorem topic_render_error {α : Type} (onSelectTopic : JSVal → α) (s : State) (m : String)
    (hl : s.loading = false) (he : s.error = some m) (hm : m ≠ "") :
    render onSelectTopic s
      = some (Html.el "div" none none [.text "Error: ", .text m] : Html α) := by
  simp [render, hl, he, errorTruthy, hm]

end TopicSelectionPage

/-- Counterexample to C5. QuestPage: the call for topic 1 fails with the
message `boom`, the key changes to 2 and the call for topic 2 succeeds with one
quest. The quest is stored, and the component renders the error view. -/
theorem C5_ready_after_failure_counterexample :
    (QuestPage.run (QuestPage.mount (.num 1))
        [.settle 0 (Example.netReject "boom") [], .setTopicId (.num 2),
         .settle 0 Example.netOk [0]]).topicId = .num 2
      ∧ (QuestPage.run (QuestPage.mount (.num 1))
        [.settle 0 (Example.netReject "boom") [], .setTopicId (.num 2),
         .settle 0 Example.netOk [0]]).state.quests = [ { Example.quest3 with tasks := some [] } ]
      ∧ (QuestPage.view (QuestPage.run (QuestPage.mount (.num 1))
        [.settle 0 (Example.netReject "boom") [], .setTopicId (.num 2),
         .settle 0 Example.netOk [0]]) : Option (Html Unit))
          = some (.el "div" none none [.text "Error: ", .text "boom"]) :=
  ⟨by decide, by decide, rfl⟩

/-- C5, amended. Right after a fetch completes with every network call
successful and response array `xs`, the component renders the list view with
exactly `length xs` items, the `j`-th showing `xs[j]`, in response order:
TopicSelectionPage in every reachable state; QuestPage and BadgeDisplay
provided the error cell is null or empty (no earlier fetch failed with a
non-empty message) and the current key is truthy. -/
theorem C5_ready_rendering (α : Type) :
    (∀ (onSelectTopic : JSVal → α) (es : List TopicSelectionPage.Event)
        (fetch : Fetch (List Topic)) (xs : List Topic),
        (TopicSelectionPage.run TopicSelectionPage.mount es).inflight = true →
        fetch "/api/topics" = .response true (.ok xs) →
        TopicSelectionPage.render onSelectTopic
            (TopicSelectionPage.step (TopicSelectionPage.run TopicSelectionPage.mount es)
              (.settle fetch)).state
          = some (.el "div" none none
              [ .el "h1" none none [.text "Select a Topic"],
                .el "div" (some "topic-selection-page") none
                  (xs.map (TopicSelectionPage.topicCard onSelectTopic)) ])
        ∧ (xs.map (TopicSelectionPage.topicCard onSelectTopic)).length = xs.length
        ∧ ∀ (j : Nat) (hj : j < xs.length),
            (xs.map (TopicSelectionPage.topicCard onSelectTopic))[j]?
              = some (.el "div" (some "topic-card") (some (onSelectTopic xs[j].id))
                  [ .el "h2" none none [.text xs[j].name],
                    .el "p" none none [.text xs[j].description] ]))
    ∧ (∀ (c : QuestPage.Instance) (i : Nat) (k : JSVal) (net : QuestPage.Net)
        (order : List Nat) (qs : List Quest) (tasksOf : JSVal → List Task),
        c.inflight[i]? = some k →
        net.quests (QuestPage.questsUrl k) = .response true (.ok qs) →
        (∀ q ∈ qs, net.tasks (QuestPage.tasksUrl q) = .response true (.ok (tasksOf q.id))) →
        errorTruthy c.state.error = false →
        c.topicId.truthy = true →
        (QuestPage.view (QuestPage.step c (.settle i net order)) : Option (Html α))
          = some (.el "div" (some "quest-page") none
              [ .el "h2" none none [.text "Quests"],
                .el "ul" (some "quest-list") none
                  (qs.map (fun q => QuestPage.questItem
                    { q with tasks := some (tasksOf q.id) })) ])
        ∧ (qs.map (fun q => (QuestPage.questItem
              { q with tasks := some (tasksOf q.id) } : Html α))).length = qs.length
        ∧ ∀ (j : Nat) (hj : j < qs.length),
            (qs.map (fun q => (QuestPage.questItem
              { q with tasks := some (tasksOf q.id) } : Html α)))[j]?
              = some (.el "li" (some "quest-item") none
                  [ .el "h3" none none [.text qs[j].name],
                    .el "p" none none [.text qs[j].description],
                    .el "ul" (some "task-list") none
                      ((tasksOf qs[j].id).map QuestPage.taskItem) ]))
    ∧ (∀ (c : BadgeDisplay.Instance) (i : Nat) (k : JSVal) (fetch : Fetch (List Badge))
        (xs : List Badge),
        c.inflight[i]? = some k →
        fetch ("/api/users/" ++ k.toStr ++ "/badges") = .response true (.ok xs) →
        errorTruthy c.state.error = false →
        c.userId.truthy = true →
        (BadgeDisplay.view (BadgeDisplay.step c (.settle i fetch)) : Option (Html α))
          = some (.el "div" (some "badge-display") none
              [ .el "h2" none none [.text "Your Badges"],
                .el "ul" (some "badge-list") none (xs.map BadgeDisplay.badgeItem) ])
        ∧ (xs.map (BadgeDisplay.badgeItem : Badge → Html α)).length = xs.length
        ∧ ∀ (j : Nat) (hj : j < xs.length),
            (xs.map (BadgeDisplay.badgeItem : Badge → Html α))[j]?
              = some (.el "li" (some "badge-item") none
                  [ .el "div" (some "badge-icon") none [.text "🎉"],
                    .el "span" none none [.text xs[j].name] ])) := by
  refine ⟨?_, ?_, ?_⟩
  · intro onSel es fetch xs hin hf
    have hinit := TopicSelectionPage.topic_inflight_initial es hin
    have htry : TopicSelectionPage.fetchTopicsTry fetch = .ok xs := by
      simp only [TopicSelectionPage.fetchTopicsTry, hf]
    refine ⟨?_, by simp, ?_⟩
    · simp only [TopicSelectionPage.step, hin, if_true,
        TopicSelectionPage.topic_update_ok fetch _ xs htry, hinit]
      simp [TopicSelectionPage.render, TopicSelectionPage.initial, errorTruthy]
    · intro j hj
      simp [List.getElem?_map, List.getElem?_eq_getElem hj, TopicSelectionPage.topicCard]
  · intro c i k net order qs tasksOf hi hq ht he hk
    have htry := QuestPage.fetchQuestsAndTasksTry_ok net order k qs tasksOf hq ht
    obtain ⟨hst, htid⟩ := QuestPage.quest_step_settle_ok c i k net order _ hi htry
    refine ⟨?_, by simp, ?_⟩
    · simp only [QuestPage.view, hst, htid, QuestPage.render, he, hk]
      simp [QuestPage.listView]
    · intro j hj
      simp [List.getElem?_map, List.getElem?_eq_getElem hj, QuestPage.questItem]
  · intro c i k fetch xs hi hf he hk
    have htry : BadgeDisplay.fetchBadgesTry fetch k = .ok xs := by
      simp only [BadgeDisplay.fetchBadgesTry, hf]
    refine ⟨?_, by simp, ?_⟩
    · rw [BadgeDisplay.badge_step_settle c i k fetch hi]
      simp only [BadgeDisplay.view, BadgeDisplay.badge_update_ok fetch k _ xs htry,
        BadgeDisplay.render, he, hk]
      simp
    · intro j hj
      simp [List.getElem?_map, List.getElem?_eq_getElem hj, BadgeDisplay.badgeItem]

/-- Witness of C5, amended: the first fetch of each component succeeds. -/
theorem C5_ready_rendering_witness :
    (TopicSelectionPage.render (fun id => id)
        (TopicSelectionPage.step (TopicSelectionPage.run TopicSelectionPage.mount [])
          (.settle Example.topicsOk)).state
      = some (.el "div" none none
          [ .el "h1" none none [.text "Select a Topic"],
            .el "div" (some "topic-selection-page") none
              ([Example.topic1].map (TopicSelectionPage.topicCard (fun id => id))) ]))
    ∧ ((QuestPage.view (QuestPage.step (QuestPage.mount (.num 1))
          (.settle 0 Example.netOk [0, 1])) : Option (Html JSVal))
        = some (.el "div" (some "quest-page") none
            [ .el "h2" none none [.text "Quests"],
              .el "ul" (some "quest-list") none
                ([Example.quest1, Example.quest2].map (fun q => QuestPage.questItem
                  { q with tasks := some (Example.tasksOf q.id) })) ]))
    ∧ ((BadgeDisplay.view (BadgeDisplay.step (BadgeDisplay.mount (.num 1))
          (.settle 0 Example.badgesOk)) : Option (Html JSVal))
        = some (.el "div" (some "badge-display") none
            [ .el "h2" none none [.text "Your Badges"],
              .el "ul" (some "badge-list") none
                ([Example.badge1].map BadgeDisplay.badgeItem) ])) :=
  have h := C5_ready_rendering JSVal
  ⟨(h.1 (fun id => id) [] Example.topicsOk [Example.topic1] rfl rfl).1,
   (h.2.1 (QuestPage.mount (.num 1)) 0 (.num 1) Example.netOk [0, 1]
      [Example.quest1, Example.quest2] Example.tasksOf rfl rfl
      (by
        intro q hq
        simp only [List.mem_cons, List.mem_singleton, List.not_mem_nil, or_false] at hq
        rcases hq with rfl | rfl <;> rfl)
      rfl rfl).1,
   (h.2.2 (BadgeDisplay.mount (.num 1)) 0 (.num 1) Example.badgesOk [Example.badge1]
      rfl rfl rfl rfl).1⟩

/-- Counterexample to C6. The topics request rejects with an error whose
message is the empty string: TopicSelectionPage stores it and renders the list
view (with no card), not the error view. -/
theorem C6_empty_message_counterexample :
    (TopicSelectionPage.step TopicSelectionPage.mount
        (.settle (Example.topicsReject ""))).state.error = some ""
      ∧ TopicSelectionPage.render (fun id => id)
          (TopicSelectionPage.step TopicSelectionPage.mount
            (.settle (Example.topicsReject ""))).state
        = some (.el "div" none none
            [ .el "h1" none none [.text "Select a Topic"],
              .el "div" (some "topic-selection-page") none [] ]) :=
  ⟨by decide, rfl⟩

/-- C6, amended. For TopicSelectionPage, QuestPage and BadgeDisplay, when a
pending fetch fails, after it completes the component renders exactly the error
view `Error: ` followed by the message of the failure. The failure is that of
the topics, badges or quests request, or for QuestPage, once the quests request
has succeeded, that of the tasks request of one of the failing quests. Its
message is the message `m` of a rejection of the request or of the decoding of
its body, when `m` is not the empty string, and the fixed message of the
component when the response status is not ok. -/
theorem C6_failure_surfaced (α : Type) :
    (∀ (onSelectTopic : JSVal → α) (c : TopicSelectionPage.Instance)
        (fetch : Fetch (List Topic)), c.inflight = true →
        (∀ m, fetch "/api/topics" = .rejected m → m ≠ "" →
          TopicSelectionPage.render onSelectTopic
              (TopicSelectionPage.step c (.settle fetch)).state
            = some (.el "div" none none [.text "Error: ", .text m]))
        ∧ (∀ b, fetch "/api/topics" = .response false b →
          TopicSelectionPage.render onSelectTopic
              (TopicSelectionPage.step c (.settle fetch)).state
            = some (.el "div" none none
                [.text "Error: ", .text "Network response was not ok"]))
        ∧ (∀ m, fetch "/api/topics" = .response true (.error m) → m ≠ "" →
          TopicSelectionPage.render onSelectTopic
              (TopicSelectionPage.step c (.settle fetch)).state
            = some (.el "div" none none [.text "Error: ", .text m])))
    ∧ (∀ (c : QuestPage.Instance) (i : Nat) (k : JSVal) (net : QuestPage.Net)
        (order : List Nat), c.inflight[i]? = some k →
        (∀ m, net.quests ("/api/topics/" ++ k.toStr ++ "/quests") = .rejected m → m ≠ "" →
          (QuestPage.view (QuestPage.step c (.settle i net order)) : Option (Html α))
            = some (.el "div" none none [.text "Error: ", .text m]))
        ∧ (∀ b, net.quests ("/api/topics/" ++ k.toStr ++ "/quests") = .response false b →
          (QuestPage.view (QuestPage.step c (.settle i net order)) : Option (Html α))
            = some (.el "div" none none [.text "Error: ", .text "Failed to fetch quests"]))
        ∧ (∀ m, net.quests ("/api/topics/" ++ k.toStr ++ "/quests")
              = .response true (.error m) → m ≠ "" →
          (QuestPage.view (QuestPage.step c (.settle i net order)) : Option (Html α))
            = some (.el "div" none none [.text "Error: ", .text m]))
        ∧ (∀ qs, net.quests ("/api/topics/" ++ k.toStr ++ "/quests")
              = .response true (.ok qs) →
          (∀ q ∈ qs,
            (∃ ts, net.tasks ("/api/quests/" ++ q.id.toStr ++ "/tasks")
                = .response true (.ok ts))
            ∨ (∃ b, net.tasks ("/api/quests/" ++ q.id.toStr ++ "/tasks") = .response false b)
            ∨ (∃ m, m ≠ ""
                ∧ (net.tasks ("/api/quests/" ++ q.id.toStr ++ "/tasks") = .rejected m
                  ∨ net.tasks ("/api/quests/" ++ q.id.toStr ++ "/tasks")
                      = .response true (.error m)))) →
          (∃ q ∈ qs, ∀ ts, net.tasks ("/api/quests/" ++ q.id.toStr ++ "/tasks")
              ≠ .response true (.ok ts)) →
          ∃ q ∈ qs, ∃ m,
            (((∃ b, net.tasks ("/api/quests/" ++ q.id.toStr ++ "/tasks") = .response false b)
                ∧ m = "Failed to fetch tasks for quest " ++ q.id.toStr)
              ∨ net.tasks ("/api/quests/" ++ q.id.toStr ++ "/tasks") = .rejected m
              ∨ net.tasks ("/api/quests/" ++ q.id.toStr ++ "/tasks")
                  = .response true (.error m))
            ∧ (QuestPage.view (QuestPage.step c (.settle i net order)) : Option (Html α))
              = some (.el "div" none none [.text "Error: ", .text m])))
    ∧ (∀ (c : BadgeDisplay.Instance) (i : Nat) (k : JSVal) (fetch : Fetch (List Badge)),
        c.inflight[i]? = some k →
        (∀ m, fetch ("/api/users/" ++ k.toStr ++ "/badges") = .rejected m → m ≠ "" →
          (BadgeDisplay.view (BadgeDisplay.step c (.settle i fetch)) : Option (Html α))
            = some (.el "div" none none [.text "Error: ", .text m]))
        ∧ (∀ b, fetch ("/api/users/" ++ k.toStr ++ "/badges") = .response false b →
          (BadgeDisplay.view (BadgeDisplay.step c (.settle i fetch)) : Option (Html α))
            = some (.el "div" none none
                [.text "Error: ", .text "Network response was not ok"]))
        ∧ (∀ m, fetch ("/api/users/" ++ k.toStr ++ "/badges") = .response true (.error m) →
          m ≠ "" →
          (BadgeDisplay.view (BadgeDisplay.step c (.settle i fetch)) : Option (Html α))
            = some (.el "div" none none [.text "Error: ", .text m]))) := by
  refine ⟨?_, ?_, ?_⟩
  · intro onSel c fetch hin
    have key : ∀ m, TopicSelectionPage.fetchTopicsTry fetch = .error m → m ≠ "" →
        TopicSelectionPage.render onSel (TopicSelectionPage.step c (.settle fetch)).state
          = some (.el "div" none none [.text "Error: ", .text m]) := by
      intro m hm hne
      simp only [TopicSelectionPage.step, hin, if_true,
        TopicSelectionPage.topic_update_error fetch _ m hm]
      exact TopicSelectionPage.topic_render_error onSel _ m rfl rfl hne
    refine ⟨?_, ?_, ?_⟩
    · intro m hf hne
      exact key m (by simp only [TopicSelectionPage.fetchTopicsTry, hf]) hne
    · intro b hf
      exact key _ (by simp only [TopicSelectionPage.fetchTopicsTry, hf]) (by decide)
    · intro m hf hne
      exact key m (by simp only [TopicSelectionPage.fetchTopicsTry, hf]) hne
  · intro c i k net order hi
    have key : ∀ m, QuestPage.fetchQuestsAndTasksTry net order k = .error m → m ≠ "" →
        (QuestPage.view (QuestPage.step c (.settle i net order)) : Option (Html α))
          = some (.el "div" none none [.text "Error: ", .text m]) := by
      intro m hm hne
      obtain ⟨hst, _⟩ := QuestPage.quest_step_settle_error c i k net order m hi hm
      unfold QuestPage.view
      exact QuestPage.quest_render_error _ _ m (by rw [hst]) (by rw [hst]) hne
    refine ⟨?_, ?_, ?_, ?_⟩
    · intro m hf hne
      exact key m (by simp only [QuestPage.fetchQuestsAndTasksTry, QuestPage.questsUrl, hf]) hne
    · intro b hf
      exact key _ (by simp only [QuestPage.fetchQuestsAndTasksTry, QuestPage.questsUrl, hf])
        (by decide)
    · intro m hf hne
      exact key m (by simp only [QuestPage.fetchQuestsAndTasksTry, QuestPage.questsUrl, hf]) hne
    · intro qs hq hall hfail
      obtain ⟨q0, hq0, hbad⟩ := hfail
      have h0 : ∃ m0, QuestPage.fetchTasks net q0 = .error m0 := by
        rcases hall q0 hq0 with ⟨ts, hts⟩ | ⟨b, hb⟩ | ⟨m, _, hm | hm⟩
        · exact absurd hts (hbad ts)
        · exact ⟨"Failed to fetch tasks for quest " ++ q0.id.toStr,
            by simp only [QuestPage.fetchTasks, QuestPage.tasksUrl, hb]⟩
        · exact ⟨m, by simp only [QuestPage.fetchTasks, QuestPage.tasksUrl, hm]⟩
        · exact ⟨m, by simp only [QuestPage.fetchTasks, QuestPage.tasksUrl, hm]⟩
      obtain ⟨m0, hm0⟩ := h0
      have hmem : Except.error m0 ∈ qs.map (QuestPage.fetchTasks net) :=
        List.mem_map.mpr ⟨q0, hq0, hm0⟩
      obtain ⟨m, hm⟩ := promiseAll_error_of_mem _ order _ hmem
      obtain ⟨q, hqmem, hfq⟩ := List.mem_map.mp (promiseAll_error_mem _ _ _ hm)
      have htry : QuestPage.fetchQuestsAndTasksTry net order k = .error m := by
        simp only [QuestPage.fetchQuestsAndTasksTry, QuestPage.questsUrl, hq, hm]
      refine ⟨q, hqmem, m, ?_⟩
      rcases hall q hqmem with ⟨ts, hts⟩ | ⟨b, hb⟩ | ⟨m2, hne, hm2 | hm2⟩
      · simp [QuestPage.fetchTasks, QuestPage.tasksUrl, hts] at hfq
      · simp only [QuestPage.fetchTasks, QuestPage.tasksUrl, hb, Except.error.injEq] at hfq
        subst hfq
        exact ⟨Or.inl ⟨⟨b, hb⟩, rfl⟩, key _ htry (QuestPage.tasks_message_ne_empty q)⟩
      · simp only [QuestPage.fetchTasks, QuestPage.tasksUrl, hm2, Except.error.injEq] at hfq
        subst hfq
        exact ⟨Or.inr (Or.inl hm2), key _ htry hne⟩
      · simp only [QuestPage.fetchTasks, QuestPage.tasksUrl, hm2, Except.error.injEq] at hfq
        subst hfq
        exact ⟨Or.inr (Or.inr hm2), key _ htry hne⟩
  · intro c i k fetch hi
    have key : ∀ m, BadgeDisplay.fetchBadgesTry fetch k = .error m → m ≠ "" →
        (BadgeDisplay.view (BadgeDisplay.step c (.settle i fetch)) : Option (Html α))
          = some (.el "div" none none [.text "Error: ", .text m]) := by
      intro m hm hne
      rw [BadgeDisplay.badge_step_settle c i k fetch hi]
      simp only [BadgeDisplay.view, BadgeDisplay.badge_update_error fetch k _ m hm]
      exact BadgeDisplay.badge_render_error _ _ m rfl rfl hne
    refine ⟨?_, ?_, ?_⟩
    · intro m hf hne
      exact key m (by simp only [BadgeDisplay.fetchBadgesTry, hf]) hne
    · intro b hf
      exact key _ (by simp only [BadgeDisplay.fetchBadgesTry, hf]) (by decide)
    · intro m hf hne
      exact key m (by simp only [BadgeDisplay.fetchBadgesTry, hf]) hne

/-- Witness of C6, amended: the first request of each component rejects with
the message `boom`; and for QuestPage the quests request succeeds and the tasks
request of quest 2 rejects with `boom`. -/
theorem C6_failure_surfaced_witness :
    TopicSelectionPage.render (fun id => id)
        (TopicSelectionPage.step TopicSelectionPage.mount
          (.settle (Example.topicsReject "boom"))).state
      = some (.el "div" none none [.text "Error: ", .text "boom"])
    ∧ (QuestPage.view (QuestPage.step (QuestPage.mount (.num 1))
          (.settle 0 (Example.netReject "boom") [])) : Option (Html JSVal))
      = some (.el "div" none none [.text "Error: ", .text "boom"])
    ∧ (BadgeDisplay.view (BadgeDisplay.step (BadgeDisplay.mount (.num 1))
          (.settle 0 (Example.badgesReject "boom"))) : Option (Html JSVal))
      = some (.el "div" none none [.text "Error: ", .text "boom"])
    ∧ (∃ q ∈ [Example.quest1, Example.quest2], ∃ m,
        (((∃ b, (Example.netTasksReject "boom").tasks
                ("/api/quests/" ++ q.id.toStr ++ "/tasks") = .response false b)
            ∧ m = "Failed to fetch tasks for quest " ++ q.id.toStr)
          ∨ (Example.netTasksReject "boom").tasks
              ("/api/quests/" ++ q.id.toStr ++ "/tasks") = .rejected m
          ∨ (Example.netTasksReject "boom").tasks
              ("/api/quests/" ++ q.id.toStr ++ "/tasks") = .response true (.error m))
        ∧ (QuestPage.view (QuestPage.step (QuestPage.mount (.num 1))
            (.settle 0 (Example.netTasksReject "boom") [0, 1])) : Option (Html JSVal))
          = some (.el "div" none none [.text "Error: ", .text m])) :=
  have h := C6_failure_surfaced JSVal
  ⟨(h.1 (fun id => id) TopicSelectionPage.mount (Example.topicsReject "boom") rfl).1
      "boom" rfl (by decide),
   (h.2.1 (QuestPage.mount (.num 1)) 0 (.num 1) (Example.netReject "boom") [] rfl).1
      "boom" rfl (by decide),
   (h.2.2 (BadgeDisplay.mount (.num 1)) 0 (.num 1) (Example.badgesReject "boom") rfl).1
      "boom" rfl (by decide),
   (h.2.1 (QuestPage.mount (.num 1)) 0 (.num 1) (Example.netTasksReject "boom") [0, 1]
      rfl).2.2.2 [Example.quest1, Example.quest2] rfl
      (by
        intro q hq
        simp only [List.mem_cons, List.mem_singleton, List.not_mem_nil, or_false] at hq
        rcases hq with rfl | rfl
        · exact Or.inl ⟨[Example.t1, Example.t2], rfl⟩
        · exact Or.inr (Or.inr ⟨"boom", by decide, Or.inl rfl⟩))
      ⟨Example.quest2, by decide, fun ts h => by cases h⟩⟩

/-- Counterexample to C7. With a null key, the first render of QuestPage and of
BadgeDisplay is the loading view (loading starts true and the effect has not
run yet); and after the call for topic 1 has failed, QuestPage with the key set
to null renders the error view. -/
theorem C7_no_key_view_counterexample :
    (QuestPage.view (QuestPage.firstRender .null) : Option (Html Unit))
        = some (.el "div" none none [.text "Loading quests..."])
      ∧ (BadgeDisplay.view (BadgeDisplay.firstRender .null) : Option (Html Unit))
        = some (.el "div" none none [.text "Loading badges..."])
      ∧ (QuestPage.run (QuestPage.mount (.num 1))
          [.settle 0 (Example.netReject "boom") [], .setTopicId .null]).topicId = .null
      ∧ (QuestPage.view (QuestPage.run (QuestPage.mount (.num 1))
          [.settle 0 (Example.netReject "boom") [], .setTopicId .null]) : Option (Html Unit))
        = some (.el "div" none none [.text "Error: ", .text "boom"]) :=
  ⟨rfl, rfl, by decide, rfl⟩

/-- C7, amended. In every state in which the current key is null or undefined
(or otherwise falsy), loading is false and the error cell is null or empty,
QuestPage renders the prompt `Select a topic to see the quests.` and
BadgeDisplay renders nothing. This is the state after the mount effect has run
with such a key, and the state after such a key is passed to a component whose
loading is false and whose error cell is null or empty. -/
theorem C7_no_key_view (α : Type) (k : JSVal) (hk : k.truthy = false) :
    (∀ s : QuestPage.State, s.loading = false → errorTruthy s.error = false →
        (QuestPage.render k s : Option (Html α))
          = some (.el "div" none none [.text "Select a topic to see the quests."]))
    ∧ (∀ s : BadgeDisplay.State, s.loading = false → errorTruthy s.error = false →
        (BadgeDisplay.render k s : Option (Html α)) = none)
    ∧ (QuestPage.view (QuestPage.mount k) : Option (Html α))
        = some (.el "div" none none [.text "Select a topic to see the quests."])
    ∧ (BadgeDisplay.view (BadgeDisplay.mount k) : Option (Html α)) = none
    ∧ (∀ c : QuestPage.Instance, c.state.loading = false → errorTruthy c.state.error = false →
        (QuestPage.view (QuestPage.step c (.setTopicId k)) : Option (Html α))
          = some (.el "div" none none [.text "Select a topic to see the quests."]))
    ∧ (∀ c : BadgeDisplay.Instance, c.state.loading = false →
        errorTruthy c.state.error = false →
        (BadgeDisplay.view (BadgeDisplay.step c (.setUserId k)) : Option (Html α)) = none) := by
  have hq : ∀ s : QuestPage.State, s.loading = false → errorTruthy s.error = false →
      (QuestPage.render k s : Option (Html α))
        = some (.el "div" none none [.text "Select a topic to see the quests."]) := by
    intro s hl he
    simp [QuestPage.render, hl, he, hk]
  have hb : ∀ s : BadgeDisplay.State, s.loading = false → errorTruthy s.error = false →
      (BadgeDisplay.render k s : Option (Html α)) = none := by
    intro s hl he
    simp [BadgeDisplay.render, hl, he, hk]
  refine ⟨hq, hb, ?_, ?_, ?_, ?_⟩
  · simp only [QuestPage.view, QuestPage.mount, QuestPage.effect, QuestPage.firstRender, hk]
    exact hq _ rfl rfl
  · simp only [BadgeDisplay.view, BadgeDisplay.mount, BadgeDisplay.effect,
      BadgeDisplay.firstRender, hk]
    exact hb _ rfl rfl
  · intro c hl he
    obtain ⟨h1, h2⟩ := QuestPage.quest_step_setTopicId_state c k hl
    simp only [QuestPage.view, h1, h2]
    exact hq _ hl he
  · intro c hl he
    obtain ⟨h1, h2⟩ := BadgeDisplay.badge_step_setUserId_state c k hl
    simp only [BadgeDisplay.view, h1, h2]
    exact hb _ hl he

/-- Witness of C7, amended: the key null, at mount and after topic 1 and user 1
were fetched with success. -/
theorem C7_no_key_view_witness :
    (QuestPage.view (QuestPage.mount .null) : Option (Html Unit))
        = some (.el "div" none none [.text "Select a topic to see the quests."])
      ∧ (BadgeDisplay.view (BadgeDisplay.mount .null) : Option (Html Unit)) = none
      ∧ (QuestPage.view (QuestPage.step
          (QuestPage.run (QuestPage.mount (.num 1)) [.settle 0 Example.netOk [0, 1]])
          (.setTopicId .null)) : Option (Html Unit))
        = some (.el "div" none none [.text "Select a topic to see the quests."])
      ∧ (BadgeDisplay.view (BadgeDisplay.step
          (BadgeDisplay.run (BadgeDisplay.mount (.num 1)) [.settle 0 Example.badgesOk])
          (.setUserId .null)) : Option (Html Unit)) = none :=
  have h := C7_no_key_view Unit .null rfl
  ⟨h.2.2.1, h.2.2.2.1, h.2.2.2.2.1 _ (by decide) (by decide),
   h.2.2.2.2.2 _ (by decide) (by decide)⟩

/-- Counterexample to C8. The numeric key `0` and the string key `""` are
neither null nor undefined, and the effect issues no request for them. -/
theorem C8_falsy_key_counterexample :
    QuestPage.effectRequests Example.netOk [0] (.num 0) = []
      ∧ BadgeDisplay.effectRequests Example.badgesOk (.str "") = []
      ∧ JSVal.num 0 ≠ JSVal.null ∧ JSVal.num 0 ≠ JSVal.undefined
      ∧ JSVal.str "" ≠ JSVal.null ∧ JSVal.str "" ≠ JSVal.undefined := by
  decide

/-- C8, amended. The requests issued by one run of the effect are: none when
the key is falsy (null, undefined, the number 0 or the empty string); for
BadgeDisplay with a truthy `userId` the single request `/api/users/<u>/badges`;
for QuestPage with a truthy `topicId` the request `/api/topics/<k>/quests`
followed, only if it answers ok with a decoded array `qs`, by exactly one
request `/api/quests/<q.id>/tasks` for each `q` of `qs`, in the order of
`qs`. -/
theorem C8_request_trace (net : QuestPage.Net) (order : List Nat)
    (fetch : Fetch (List Badge)) (k : JSVal) :
    (k.truthy = false →
        QuestPage.effectRequests net order k = []
          ∧ BadgeDisplay.effectRequests fetch k = [])
    ∧ (k.truthy = true →
        BadgeDisplay.effectRequests fetch k = ["/api/users/" ++ k.toStr ++ "/badges"])
    ∧ (k.truthy = true → ∀ qs,
        net.quests ("/api/topics/" ++ k.toStr ++ "/quests") = .response true (.ok qs) →
        QuestPage.effectRequests net order k
          = ("/api/topics/" ++ k.toStr ++ "/quests")
              :: qs.map (fun q => "/api/quests/" ++ q.id.toStr ++ "/tasks"))
    ∧ (k.truthy = true →
        (∀ qs, net.quests ("/api/topics/" ++ k.toStr ++ "/quests")
          ≠ .response true (.ok qs)) →
        QuestPage.effectRequests net order k = ["/api/topics/" ++ k.toStr ++ "/quests"])
    ∧ (k.truthy = false ↔ k = .null ∨ k = .undefined ∨ k = .num 0 ∨ k = .str "") := by
  refine ⟨?_, ?_, ?_, ?_, ?_⟩
  · intro hk
    simp [QuestPage.effectRequests, BadgeDisplay.effectRequests, hk]
  · intro hk
    simp [BadgeDisplay.effectRequests, BadgeDisplay.fetchBadges, hk]
  · intro hk qs hq
    have hq2 : net.quests (QuestPage.questsUrl k) = .response true (.ok qs) := hq
    simp only [QuestPage.effectRequests, hk, QuestPage.fetchQuestsAndTasks,
      QuestPage.fetchQuestsAndTasksRequests, hq2]
    rfl
  · intro hk hq
    have hq2 : ∀ qs, net.quests (QuestPage.questsUrl k) ≠ .response true (.ok qs) := hq
    simp only [QuestPage.effectRequests, hk, QuestPage.fetchQuestsAndTasks,
      QuestPage.fetchQuestsAndTasksRequests, Bool.not_true, Bool.false_eq_true, if_false]
    rfl
  · cases k with
    | null => simp [JSVal.truthy]
    | undefined => simp [JSVal.truthy]
    | num n => simp [JSVal.truthy]
    | str s => simp [JSVal.truthy]

/-- Witness of C8, amended: key null, and key 1 on the network where topic 1
has quests 1 and 2. -/
theorem C8_request_trace_witness :
    QuestPage.effectRequests Example.netOk [0, 1] .null = []
      ∧ BadgeDisplay.effectRequests Example.badgesOk (.num 1) = ["/api/users/1/badges"]
      ∧ QuestPage.effectRequests Example.netOk [0, 1] (.num 1)
          = ["/api/topics/1/quests", "/api/quests/1/tasks", "/api/quests/2/tasks"] :=
  ⟨((C8_request_trace Example.netOk [0, 1] Example.badgesOk .null).1 rfl).1,
   (C8_request_trace Example.netOk [0, 1] Example.badgesOk (.num 1)).2.1 rfl,
   (C8_request_trace Example.netOk [0, 1] Example.badgesOk (.num 1)).2.2.1 rfl
      [Example.quest1, Example.quest2] rfl⟩

/-! ## Handlers and texts of the rendered trees -/

namespace Html

theorem handlersList_append {α : Type} (xs ys : List (Html α)) :
    handlersList (xs ++ ys) = handlersList xs ++ handlersList ys := by
  induction xs with
  | nil => simp [handlersList]
  | cons x xs ih => simp [handlersList, ih]

theorem textsList_append {α : Type} (xs ys : List (Html α)) :
    textsList (xs ++ ys) = textsList xs ++ textsList ys := by
  induction xs with
  | nil => simp [textsList]
  | cons x xs ih => simp [textsList, ih]

theorem handlersList_map_none {α β : Type} (f : β → Html α) (xs : List β)
    (h : ∀ x, handlers (f x) = []) : handlersList (xs.map f) = [] := by
  induction xs with
  | nil => simp [handlersList]
  | cons x xs ih => simp [handlersList, ih, h]

theorem handlersList_map_one {α β : Type} (f : β → Html α) (g : β → α) (xs : List β)
    (h : ∀ x, handlers (f x) = [g x]) : handlersList (xs.map f) = xs.map g := by
  induction xs with
  | nil => simp [handlersList]
  | cons x xs ih => simp [handlersList, ih, h]

end Html

theorem topic_render_handlers {α : Type} (onSelectTopic : JSVal → α)
    (s : TopicSelectionPage.State) :
    Html.handlersList (TopicSelectionPage.render onSelectTopic s).toList
      = if s.loading then [] else if errorTruthy s.error then []
        else s.topics.map (fun topic => onSelectTopic topic.id) := by
  have hcard : ∀ topic : Topic,
      Html.handlers (TopicSelectionPage.topicCard onSelectTopic topic)
        = [onSelectTopic topic.id] := by
    intro topic
    simp [TopicSelectionPage.topicCard, Html.handlers, Html.handlersList]
  unfold TopicSelectionPage.render
  split
  · simp [Html.handlers, Html.handlersList]
  · split
    · simp [Html.handlers, Html.handlersList]
    · simp only [Option.toList, Html.handlers, Html.handlersList, List.append_nil]
      exact Html.handlersList_map_one _ _ _ hcard

theorem quest_render_handlers {α : Type} (topicId : JSVal) (s : QuestPage.State) :
    Html.handlersList (QuestPage.render topicId s : Option (Html α)).toList = [] := by
  have htask : ∀ task : Task, Html.handlers (QuestPage.taskItem task : Html α) = [] := by
    intro task
    simp [QuestPage.taskItem, Html.handlers, Html.handlersList]
  have hitem : ∀ quest : Quest, Html.handlers (QuestPage.questItem quest : Html α) = [] := by
    intro quest
    cases hq : quest.tasks with
    | none => simp [QuestPage.questItem, hq, Html.handlers, Html.handlersList]
    | some ts =>
      simp [QuestPage.questItem, hq, Html.handlers, Html.handlersList,
        Html.handlersList_map_none _ ts htask]
  unfold QuestPage.render
  split
  · simp [Html.handlers, Html.handlersList]
  · split
    · simp [Html.handlers, Html.handlersList]
    · split
      · simp [Html.handlers, Html.handlersList]
      · simp [QuestPage.listView, Html.handlers, Html.handlersList,
          Html.handlersList_map_none _ s.quests hitem]

theorem badge_render_handlers {α : Type} (userId : JSVal) (s : BadgeDisplay.State) :
    Html.handlersList (BadgeDisplay.render userId s : Option (Html α)).toList = [] := by
  have hitem : ∀ badge : Badge, Html.handlers (BadgeDisplay.badgeItem badge : Html α) = [] := by
    intro badge
    simp [BadgeDisplay.badgeItem, Html.handlers, Html.handlersList]
  unfold BadgeDisplay.render
  split
  · simp [Html.handlers, Html.handlersList]
  · split
    · simp [Html.handlers, Html.handlersList]
    · split
      · simp [Html.handlersList]
      · simp [Html.handlers, Html.handlersList,
          Html.handlersList_map_none _ s.badges hitem]

theorem reward_modal_handlers {α : Type} (reward : Option Reward) (onClose : α) :
    Html.handlersList (RewardModal reward onClose).toList
      = match reward with
        | none => []
        | some _ => [onClose] := by
  cases reward with
  | none => simp [RewardModal, Html.handlersList]
  | some r => simp [RewardModal, Html.handlers, Html.handlersList]

/-- C9. RewardModal renders nothing when `reward` is null; when it is not, the
output contains `reward.name` and has exactly one element with a click handler,
the button, whose handler is `onClose` itself. App renders, for every state of
its own and of its children, a header whose button `Award Reward (Test)` has the
handler `awardReward`, and as last child of `main` the modal for its `reward`
cell with `closeRewardModal` as `onClose`; the click handlers of the whole tree
are `awardReward`, those of the topic cards and, only while `reward` is not
null, `closeRewardModal`. For every App state, `awardReward` sets `reward` to
the badge `First Step`, a following `closeRewardModal` sets it back to null, and
neither changes `selectedTopicId`. -/
theorem C9_reward_modal (α : Type) :
    (∀ onClose : α, RewardModal none onClose = none)
    ∧ (∀ (reward : Reward) (onClose : α), ∃ h : Html α,
        RewardModal (some reward) onClose = some h
          ∧ reward.name ∈ h.texts
          ∧ h.handlers = [onClose])
    ∧ (∀ (s : App.State) (t : TopicSelectionPage.State) (q : QuestPage.State)
        (b : BadgeDisplay.State),
        (∃ others : List (Html (App.State → App.State)),
          App.render s t q b
            = .el "div" (some "App") none
                [ .el "header" (some "App-header") none
                    [ .el "h1" none none [.text "Lean Programming Guide"],
                      .el "button" none (some App.awardReward)
                        [.text "Award Reward (Test)"] ],
                  .el "main" none none
                    (others ++ (RewardModal s.reward App.closeRewardModal).toList) ])
        ∧ (App.render s t q b).handlers
            = App.awardReward ::
                ((if t.loading then [] else if errorTruthy t.error then []
                  else t.topics.map (fun topic => App.setSelectedTopicId topic.id))
                ++ (match s.reward with
                    | none => []
                    | some _ => [App.closeRewardModal]))
        ∧ (∀ r, s.reward = some r → r.name ∈ (App.render s t q b).texts)
        ∧ "First Step" ∈ (App.render (App.awardReward s) t q b).texts
        ∧ (App.render (App.closeRewardModal (App.awardReward s)) t q b).handlers
            = App.awardReward ::
                (if t.loading then [] else if errorTruthy t.error then []
                  else t.topics.map (fun topic => App.setSelectedTopicId topic.id)))
    ∧ (∀ s : App.State,
        (App.awardReward s).reward = some { type := "Badge", name := "First Step" }
          ∧ (App.awardReward s).selectedTopicId = s.selectedTopicId
          ∧ (App.closeRewardModal (App.awardReward s)).reward = none
          ∧ (App.closeRewardModal (App.awardReward s)).selectedTopicId
              = s.selectedTopicId) := by
  have hh : ∀ (s : App.State) (t : TopicSelectionPage.State) (q : QuestPage.State)
      (b : BadgeDisplay.State),
      (App.render s t q b).handlers
        = App.awardReward ::
            ((if t.loading then [] else if errorTruthy t.error then []
              else t.topics.map (fun topic => App.setSelectedTopicId topic.id))
            ++ (match s.reward with
                | none => []
                | some _ => [App.closeRewardModal])) := by
    intro s t q b
    simp only [App.render, StudyMaterial, Html.handlers, Html.handlersList,
      Html.handlersList_append, topic_render_handlers, quest_render_handlers,
      badge_render_handlers, reward_modal_handlers, List.append_nil, List.nil_append,
      List.cons_append]
  have ht : ∀ (s : App.State) (t : TopicSelectionPage.State) (q : QuestPage.State)
      (b : BadgeDisplay.State) (r : Reward), s.reward = some r →
      r.name ∈ (App.render s t q b).texts := by
    intro s t q b r hr
    simp only [App.render, Html.texts, Html.textsList, Html.textsList_append, hr, RewardModal,
      Option.toList, List.append_nil]
    simp
  refine ⟨fun _ => rfl, ?_, ?_, ?_⟩
  · intro reward onClose
    refine ⟨_, rfl, ?_, ?_⟩
    · simp [Html.texts, Html.textsList]
    · simp [Html.handlers, Html.handlersList]
  · intro s t q b
    refine ⟨⟨_, rfl⟩, hh s t q b, ht s t q b, ht _ t q b _ rfl, ?_⟩
    rw [hh]
    simp [App.closeRewardModal]
  · intro s
    exact ⟨rfl, rfl, rfl, rfl⟩

/-- Witness of C9: App after the award, with the topics loaded. -/
theorem C9_reward_modal_witness :
    "First Step" ∈ (App.render (App.awardReward App.initial)
        { topics := [Example.topic1], loading := false, error := none }
        QuestPage.initial BadgeDisplay.initial).texts :=
  ((C9_reward_modal Unit).2.2.1 (App.awardReward App.initial)
      { topics := [Example.topic1], loading := false, error := none }
      QuestPage.initial BadgeDisplay.initial).2.2.1
    { type := "Badge", name := "First Step" } rfl

/-! ## No transition sets loading to true or error to null -/

namespace TopicSelectionPage

theorem topic_step_sticky (c : Instance) (e : Event) :
    ((step c e).state.loading = true → c.state.loading = true)
      ∧ ((step c e).state.error = none → c.state.error = none) := by
  cases e with
  | rerender => exact ⟨id, id⟩
  | settle fetch =>
    simp only [step]
    split
    · simp only [fetchTopics]
      split
      · exact ⟨fun h => (by cases h), id⟩
      · exact ⟨fun h => (by cases h), fun h => (by cases h)⟩
    · exact ⟨id, id⟩

theorem topic_run_sticky (es : List Event) (c : Instance) :
    (c.state.loading = false → (run c es).state.loading = false)
      ∧ (c.state.error ≠ none → (run c es).state.error ≠ none) := by
  induction es generalizing c with
  | nil => exact ⟨id, id⟩
  | cons e es ih =>
    obtain ⟨h1, h2⟩ := topic_step_sticky c e
    obtain ⟨i1, i2⟩ := ih (step c e)
    simp only [run, List.foldl_cons] at i1 i2 ⊢
    refine ⟨fun h => i1 ?_, fun h => i2 (fun h3 => h (h2 h3))⟩
    cases hl : (step c e).state.loading with
    | false => rfl
    | true => rw [h1 hl] at h; cases h

end TopicSelectionPage

namespace QuestPage

theorem quest_step_sticky (c : Instance) (e : Event) :
    ((step c e).state.loading = true → c.state.loading = true)
      ∧ ((step c e).state.error = none → c.state.error = none) := by
  cases e with
  | setTopicId k =>
    simp only [step, effect]
    split
    · exact ⟨id, id⟩
    · split
      · exact ⟨fun h => (by cases h), id⟩
      · exact ⟨id, id⟩
  | settle i net order =>
    simp only [step]
    split
    · exact ⟨id, id⟩
    · simp only [fetchQuestsAndTasks]
      split
      · exact ⟨fun h => (by cases h), id⟩
      · exact ⟨fun h => (by cases h), fun h => (by cases h)⟩

theorem quest_run_sticky (es : List Event) (c : Instance) :
    (c.state.loading = false → (run c es).state.loading = false)
      ∧ (c.state.error ≠ none → (run c es).state.error ≠ none) := by
  induction es generalizing c with
  | nil => exact ⟨id, id⟩
  | cons e es ih =>
    obtain ⟨h1, h2⟩ := quest_step_sticky c e
    obtain ⟨i1, i2⟩ := ih (step c e)
    simp only [run, List.foldl_cons] at i1 i2 ⊢
    refine ⟨fun h => i1 ?_, fun h => i2 (fun h3 => h (h2 h3))⟩
    cases hl : (step c e).state.loading with
    | false => rfl
    | true => rw [h1 hl] at h; cases h

end QuestPage

namespace BadgeDisplay

theorem badge_step_sticky (c : Instance) (e : Event) :
    ((step c e).state.loading = true → c.state.loading = true)
      ∧ ((step c e).state.error = none → c.state.error = none) := by
  cases e with
  | setUserId k =>
    simp only [step, effect]
    split
    · exact ⟨id, id⟩
    · split
      · exact ⟨fun h => (by cases h), id⟩
      · exact ⟨id, id⟩
  | settle i fetch =>
    simp only [step]
    split
    · exact ⟨id, id⟩
    · simp only [fetchBadges]
      split
      · exact ⟨fun h => (by cases h), id⟩
      · exact ⟨fun h => (by cases h), fun h => (by cases h)⟩

theorem badge_run_sticky (es : List Event) (c : Instance) :
    (c.state.loading = false → (run c es).state.loading = false)
      ∧ (c.state.error ≠ none → (run c es).state.error ≠ none) := by
  induction es generalizing c with
  | nil => exact ⟨id, id⟩
  | cons e es ih =>
    obtain ⟨h1, h2⟩ := badge_step_sticky c e
    obtain ⟨i1, i2⟩ := ih (step c e)
    simp only [run, List.foldl_cons] at i1 i2 ⊢
    refine ⟨fun h => i1 ?_, fun h => i2 (fun h3 => h (h2 h3))⟩
    cases hl : (step c e).state.loading with
    | false => rfl
    | true => rw [h1 hl] at h; cases h

end BadgeDisplay

/-- C10. Sticky failure. In TopicSelectionPage, QuestPage and BadgeDisplay no
step of the lifecycle sets loading to true or error to null; hence along every
sequence of key changes and fetch completions, once loading is false it stays
false and once error is non-null it stays non-null. In particular, for
QuestPage and BadgeDisplay, when the error cell holds a non-empty message and a
later fetch succeeds, the list is stored and the component still renders the
error view with the old message. -/
theorem C10_sticky_failure (α : Type) :
    (∀ (c : TopicSelectionPage.Instance) (e : TopicSelectionPage.Event),
        ((TopicSelectionPage.step c e).state.loading = true → c.state.loading = true)
          ∧ ((TopicSelectionPage.step c e).state.error = none → c.state.error = none))
    ∧ (∀ (c : QuestPage.Instance) (e : QuestPage.Event),
        ((QuestPage.step c e).state.loading = true → c.state.loading = true)
          ∧ ((QuestPage.step c e).state.error = none → c.state.error = none))
    ∧ (∀ (c : BadgeDisplay.Instance) (e : BadgeDisplay.Event),
        ((BadgeDisplay.step c e).state.loading = true → c.state.loading = true)
          ∧ ((BadgeDisplay.step c e).state.error = none → c.state.error = none))
    ∧ (∀ (c : TopicSelectionPage.Instance) (es : List TopicSelectionPage.Event),
        (c.state.loading = false → (TopicSelectionPage.run c es).state.loading = false)
          ∧ (c.state.error ≠ none → (TopicSelectionPage.run c es).state.error ≠ none))
    ∧ (∀ (c : QuestPage.Instance) (es : List QuestPage.Event),
        (c.state.loading = false → (QuestPage.run c es).state.loading = false)
          ∧ (c.state.error ≠ none → (QuestPage.run c es).state.error ≠ none))
    ∧ (∀ (c : BadgeDisplay.Instance) (es : List BadgeDisplay.Event),
        (c.state.loading = false → (BadgeDisplay.run c es).state.loading = false)
          ∧ (c.state.error ≠ none → (BadgeDisplay.run c es).state.error ≠ none))
    ∧ (∀ (c : QuestPage.Instance) (i : Nat) (k : JSVal) (net : QuestPage.Net)
        (order : List Nat) (qs : List Quest) (tasksOf : JSVal → List Task) (m : String),
        c.inflight[i]? = some k →
        c.state.loading = false → c.state.error = some m → m ≠ "" →
        net.quests (QuestPage.questsUrl k) = .response true (.ok qs) →
        (∀ q ∈ qs, net.tasks (QuestPage.tasksUrl q) = .response true (.ok (tasksOf q.id))) →
        (QuestPage.step c (.settle i net order)).state.quests
            = qs.map (fun q => { q with tasks := some (tasksOf q.id) })
          ∧ (QuestPage.view (QuestPage.step c (.settle i net order)) : Option (Html α))
            = some (.el "div" none none [.text "Error: ", .text m]))
    ∧ (∀ (c : BadgeDisplay.Instance) (i : Nat) (k : JSVal) (fetch : Fetch (List Badge))
        (xs : List Badge) (m : String),
        c.inflight[i]? = some k →
        c.state.loading = false → c.state.error = some m → m ≠ "" →
        fetch ("/api/users/" ++ k.toStr ++ "/badges") = .response true (.ok xs) →
        (BadgeDisplay.step c (.settle i fetch)).state.badges = xs
          ∧ (BadgeDisplay.view (BadgeDisplay.step c (.settle i fetch)) : Option (Html α))
            = some (.el "div" none none [.text "Error: ", .text m])) := by
  refine ⟨TopicSelectionPage.topic_step_sticky, QuestPage.quest_step_sticky,
    BadgeDisplay.badge_step_sticky, fun c es => TopicSelectionPage.topic_run_sticky es c,
    fun c es => QuestPage.quest_run_sticky es c,
    fun c es => BadgeDisplay.badge_run_sticky es c, ?_, ?_⟩
  · intro c i k net order qs tasksOf m hi hl he hm hq ht
    have htry := QuestPage.fetchQuestsAndTasksTry_ok net order k qs tasksOf hq ht
    obtain ⟨hst, _⟩ := QuestPage.quest_step_settle_ok c i k net order _ hi htry
    refine ⟨by rw [hst], ?_⟩
    unfold QuestPage.view
    exact QuestPage.quest_render_error _ _ m (by rw [hst]) (by rw [hst]; exact he) hm
  · intro c i k fetch xs m hi hl he hm hf
    have htry : BadgeDisplay.fetchBadgesTry fetch k = .ok xs := by
      simp only [BadgeDisplay.fetchBadgesTry, hf]
    rw [BadgeDisplay.badge_step_settle c i k fetch hi]
    simp only [BadgeDisplay.view, BadgeDisplay.badge_update_ok fetch k _ xs htry]
    exact ⟨trivial, BadgeDisplay.badge_render_error _ _ m rfl he hm⟩

/-- Witness of C10: topic 1 fails with `boom`, the key changes to 2 and topic
2 is fetched with success; the same for the badges of users 1 and 2. -/
theorem C10_sticky_failure_witness :
    ((QuestPage.step
        (QuestPage.run (QuestPage.mount (.num 1))
          [.settle 0 (Example.netReject "boom") [], .setTopicId (.num 2)])
        (.settle 0 Example.netOk [0])).state.quests
        = [Example.quest3].map (fun q => { q with tasks := some (Example.tasksOf q.id) })
      ∧ (QuestPage.view (QuestPage.step
        (QuestPage.run (QuestPage.mount (.num 1))
          [.settle 0 (Example.netReject "boom") [], .setTopicId (.num 2)])
        (.settle 0 Example.netOk [0])) : Option (Html Unit))
        = some (.el "div" none none [.text "Error: ", .text "boom"]))
    ∧ ((BadgeDisplay.step
        (BadgeDisplay.run (BadgeDisplay.mount (.num 1))
          [.settle 0 (Example.badgesReject "boom"), .setUserId (.num 2)])
        (.settle 0 Example.badgesOk)).state.badges = [Example.badge1]
      ∧ (BadgeDisplay.view (BadgeDisplay.step
        (BadgeDisplay.run (BadgeDisplay.mount (.num 1))
          [.settle 0 (Example.badgesReject "boom"), .setUserId (.num 2)])
        (.settle 0 Example.badgesOk)) : Option (Html Unit))
        = some (.el "div" none none [.text "Error: ", .text "boom"]))
    ∧ (QuestPage.run (QuestPage.run (QuestPage.mount (.num 1))
          [.settle 0 (Example.netReject "boom") []])
        [.setTopicId (.num 2), .settle 0 Example.netOk [0]]).state.loading = false :=
  have h := C10_sticky_failure Unit
  ⟨h.2.2.2.2.2.2.1 _ 0 (.num 2) Example.netOk [0] [Example.quest3] Example.tasksOf "boom"
      rfl (by decide) (by decide) (by decide) rfl
      (by
        intro q hq
        simp only [List.mem_singleton] at hq
        subst hq
        rfl),
   h.2.2.2.2.2.2.2 _ 0 (.num 2) Example.badgesOk [Example.badge1] "boom"
      rfl (by decide) (by decide) (by decide) rfl,
   (h.2.2.2.2.1 _ _).1 (by decide)⟩

end Portal
